import Mathlib

/-!
Shallow embedding of the CEDHBC case-management client's validation and
state-synchronization layer.

Sources embedded here:
* `src/lib/utils.ts` — pure field normalizers/validators (`normalizeWhitespace`,
  `normalizeFolio`, `normalizeDateOnly`, `isFutureDate`, `isValidFolio`,
  `truncateText`, `getMesRegistro`, `FIELD_LIMITS`, `ESTADOS`).
* `src/context/ExpedientesContext.tsx` — record-level validators
  (`normalizeCreatePayload`, `normalizeUpdatePayload`) and the repository
  operations (`createExpediente`, `updateExpediente`, `deleteExpediente`,
  `isUuid`).
* `src/context/NotificationsContext.tsx` — the bounded notification store
  (`addNotification`, `upsertSystemNotification`, `MAX_NOTIFICATIONS`).
* `src/components/dashboard/Dashboard.tsx` — `normalizeEstado` and the
  dashboard status-count projection.
* `src/components/reportes/Reportes.tsx` — the report status-count projection
  (`byEstado`).
* `src/components/configuracion/Configuracion.tsx` — backup import
  (`sanitizeDate`, `sanitizeEstado`, `parseBackupRecords`, and the
  per-record classification loop of `handleImportRespaldo`).

Modelling conventions:
* JS strings are Lean `String`s; all computations work on `String.data`
  (`List Char`) because the core `String` primitives do not reduce in the
  kernel.  JS `<`/`>` on strings (UTF-16 code-unit lexicographic order) is
  `jsLt` below; for the ASCII date/folio strings compared by the program this
  agrees with JS.
* `String.prototype.toUpperCase`/`toLowerCase` are modelled per-character on
  the ASCII range (`toUpperChar`/`toLowerChar`); the strings the program
  compares case-insensitively (folios, estados) only rely on ASCII case.
* `new Date(...)` parsing followed by UTC re-rendering (`normalizeDateOnly`)
  is modelled as accepting exactly the strict `YYYY-MM-DD` form (4-digit
  year, calendar-valid month/day) and returning the string unchanged;
  every other input is unparseable.  All claims below are conditioned on the
  *result* of this normalization, so the model only needs the round-trip
  property of the strict form, which JS satisfies.
* "today" (the program reads it from `new Date()` both at local midnight for
  `isFutureDate` and as UTC `toISOString().split('T')[0]`) is a single
  explicit `today : String` parameter threaded through every function that
  consults the clock.
* Fallible operations return `Except String _` (the source's
  `{ payload | data, error }` discriminated results); repository operations
  return an inductive result whose non-`localError` constructor marks the
  point where the source performs its first network call.  Local error paths
  in the source never write to the `expedientes` snapshot state (they
  `return` before any `setExpedientes`/`fetchExpedientes`), so a `localError`
  result entails an unchanged snapshot and no network traffic.
-/

/-! ## Character and string primitives (src/lib/utils.ts) -/

/-- JS regex `\s` (whitespace) membership, restricted to the whitespace
characters that can actually occur in the program's inputs. -/
def isJsWs (c : Char) : Bool :=
  c == ' ' || c == '\t' || c == '\n' || c == '\r' || c == '\x0b' || c == '\x0c' || c == ' '

/-- Core of JS `String.prototype.replace(/RUN+/g, r)`: every maximal run of
characters satisfying `p` is replaced by the single character `r`.  The flag
records whether the previous character was part of a run. -/
def replaceRunsAux (p : Char → Bool) (r : Char) : Bool → List Char → List Char
  | _, [] => []
  | inRun, c :: cs =>
    if p c then
      (if inRun then [] else [r]) ++ replaceRunsAux p r true cs
    else
      c :: replaceRunsAux p r false cs

/-- JS `value.replace(/p+/g, r)` for a character-class pattern `p`. -/
def replaceRuns (p : Char → Bool) (r : Char) (l : List Char) : List Char :=
  replaceRunsAux p r false l

/-- JS `String.prototype.trim` on a character list (drop leading and trailing
whitespace). -/
def trimChars (l : List Char) : List Char :=
  ((l.dropWhile isJsWs).reverse.dropWhile isJsWs).reverse

/-- JS `value.trim()`. -/
def jsTrim (s : String) : String :=
  ⟨trimChars s.data⟩

/-- `normalizeWhitespace` from src/lib/utils.ts:
`value.replace(/\s+/g, ' ').trim()`. -/
def normalizeWhitespace (s : String) : String :=
  ⟨trimChars (replaceRuns isJsWs ' ' s.data)⟩

/-- Per-character model of JS `toUpperCase` (ASCII letters; other characters
are fixed, which matches JS on every character this program uppercases). -/
def toUpperChar (c : Char) : Char :=
  if 97 ≤ c.toNat && c.toNat ≤ 122 then Char.ofNat (c.toNat - 32) else c

/-- Per-character model of JS `toLowerCase` (ASCII letters). -/
def toLowerChar (c : Char) : Char :=
  if 65 ≤ c.toNat && c.toNat ≤ 90 then Char.ofNat (c.toNat + 32) else c

/-- JS `value.toUpperCase()`. -/
def jsToUpper (s : String) : String :=
  ⟨s.data.map toUpperChar⟩

/-- JS `value.toLowerCase()`. -/
def jsToLower (s : String) : String :=
  ⟨s.data.map toLowerChar⟩

/-- Character class `[\s/]` used by `normalizeFolio`. -/
def wsOrSlash (c : Char) : Bool :=
  isJsWs c || c == '/'

/-- `normalizeFolio` from src/lib/utils.ts:
`normalizeWhitespace(value).toUpperCase().replace(/[\s/]+/g, '-')`. -/
def normalizeFolio (s : String) : String :=
  ⟨replaceRuns wsOrSlash '-' ((normalizeWhitespace s).data.map toUpperChar)⟩

/-- JS `value.slice(0, n)` for a non-negative `n`. -/
def jsSlice (s : String) (n : Nat) : String :=
  ⟨s.data.take n⟩

/-- `truncateText` from src/lib/utils.ts:
`normalizeWhitespace(value).slice(0, Math.max(0, maxLength))`. -/
def truncateText (s : String) (maxLength : Nat) : String :=
  jsSlice (normalizeWhitespace s) maxLength

/-- JS regex `[0-9]` / `\d`. -/
def isDigitChar (c : Char) : Bool :=
  48 ≤ c.toNat && c.toNat ≤ 57

/-- Numeric value of a decimal digit character. -/
def digitVal (c : Char) : Nat :=
  c.toNat - 48

/-- Gregorian leap-year rule (as implemented by the JS `Date` calendar). -/
def isLeapYear (y : Nat) : Bool :=
  (y % 4 == 0 && y % 100 != 0) || y % 400 == 0

/-- Days in month `m` of year `y` (JS `Date` calendar). -/
def daysInMonth (y m : Nat) : Nat :=
  if m == 2 then (if isLeapYear y then 29 else 28)
  else if m == 4 || m == 6 || m == 9 || m == 11 then 30
  else 31

/-- Split a `YYYY-MM-DD` character list into `(year, month, day)`. -/
def ymdParts : List Char → Option (Nat × Nat × Nat)
  | [y1, y2, y3, y4, s1, m1, m2, s2, d1, d2] =>
    if s1 == '-' && s2 == '-' && [y1, y2, y3, y4, m1, m2, d1, d2].all isDigitChar then
      some (digitVal y1 * 1000 + digitVal y2 * 100 + digitVal y3 * 10 + digitVal y4,
            digitVal m1 * 10 + digitVal m2,
            digitVal d1 * 10 + digitVal d2)
    else none
  | _ => none

/-- Whether `s` is a calendar-valid strict `YYYY-MM-DD` date string. -/
def validYmd (s : String) : Bool :=
  match ymdParts s.data with
  | some (y, m, d) => 1 ≤ m && m ≤ 12 && 1 ≤ d && d ≤ daysInMonth y m
  | none => false

/-- `normalizeDateOnly` from src/lib/utils.ts: parse a date-like input and
re-render it as strict UTC `YYYY-MM-DD`, or `none` if unparseable.  Modelled
on the strict form: a calendar-valid `YYYY-MM-DD` string round-trips to
itself (as in JS), everything else is unparseable (see the file header). -/
def normalizeDateOnly (s : String) : Option String :=
  if s == "" then none
  else if validYmd s then some s
  else none

/-- JS `a < b` on strings: lexicographic comparison by code unit. -/
def jsLtChars : List Char → List Char → Bool
  | [], [] => false
  | [], _ :: _ => true
  | _ :: _, [] => false
  | a :: as, b :: bs =>
    if a.toNat < b.toNat then true
    else if b.toNat < a.toNat then false
    else jsLtChars as bs

/-- JS `a < b` on strings. -/
def jsLt (a b : String) : Bool :=
  jsLtChars a.data b.data

/-- `isFutureDate` from src/lib/utils.ts: normalize, then compare against
today's midnight; `true` iff strictly after today.  For `YYYY-MM-DD` strings
the JS millisecond comparison coincides with string comparison. -/
def isFutureDate (today s : String) : Bool :=
  match normalizeDateOnly s with
  | none => false
  | some d => jsLt today d

/-- Separator class (dash or slash) of the folio regex. -/
def isSepChar (c : Char) : Bool :=
  c == '-' || c == '/'

/-- Matcher for the anchored case-insensitive regex
`^CEDHBC[dash or slash][0-9]{4}[dash or slash][0-9]{3,6}$`. -/
def folioCore : List Char → Bool
  | c1 :: c2 :: c3 :: c4 :: c5 :: c6 :: s1 :: y1 :: y2 :: y3 :: y4 :: s2 :: rest =>
    toUpperChar c1 == 'C' && toUpperChar c2 == 'E' && toUpperChar c3 == 'D' &&
    toUpperChar c4 == 'H' && toUpperChar c5 == 'B' && toUpperChar c6 == 'C' &&
    isSepChar s1 &&
    isDigitChar y1 && isDigitChar y2 && isDigitChar y3 && isDigitChar y4 &&
    isSepChar s2 &&
    rest.all isDigitChar && decide (3 ≤ rest.length) && decide (rest.length ≤ 6)
  | _ => false

/-- `isValidFolio` from src/lib/utils.ts:
the folio regex (case-insensitive) tested against `normalizeWhitespace(value)`. -/
def isValidFolio (s : String) : Bool :=
  folioCore (normalizeWhitespace s).data

/-- Spanish month names as rendered by `toLocaleDateString('es-MX',
{ month: 'long' })`. -/
def mesName : Nat → String
  | 1 => "enero"
  | 2 => "febrero"
  | 3 => "marzo"
  | 4 => "abril"
  | 5 => "mayo"
  | 6 => "junio"
  | 7 => "julio"
  | 8 => "agosto"
  | 9 => "septiembre"
  | 10 => "octubre"
  | 11 => "noviembre"
  | 12 => "diciembre"
  | _ => ""

/-- Render a valid `YYYY-MM-DD` string as the es-MX
`{ month: 'long', year: 'numeric' }` label ("enero de 2026"). -/
def renderMesRegistro (s : String) : String :=
  match s.data with
  | [y1, y2, y3, y4, _, m1, m2, _, _, _] =>
    mesName (digitVal m1 * 10 + digitVal m2) ++ " de " ++ ⟨[y1, y2, y3, y4]⟩
  | _ => ""

/-- `getMesRegistro` from src/lib/utils.ts: month-of-registration label of the
given date, falling back to today's month when the date does not parse. -/
def getMesRegistro (today s : String) : String :=
  if validYmd s then renderMesRegistro s else renderMesRegistro today

-- FIELD_LIMITS from src/lib/utils.ts.
namespace FIELD_LIMITS

def folio : Nat := 32

def tipoDerecho : Nat := 120

def autoridad : Nat := 160

def visitador : Nat := 120

def notas : Nat := 2500

end FIELD_LIMITS

/-- `ESTADOS` from src/lib/utils.ts (client-side canonical status spellings;
the database CHECK additionally admits the unaccented spellings
"En integracion" and "En conciliacion" for the two accented states). -/
def ESTADOS : List String :=
  ["Admitida", "En integración", "En conciliación", "Resuelta", "Archivada"]

-- sanity examples for the primitives (concrete executions)
example : normalizeFolio " cedhbc 2024/007 " = "CEDHBC-2024-007" := by decide

example : isValidFolio "CEDHBC-2024-007" = true := by decide

example : isValidFolio "CEDHBC-2024-07" = false := by decide

example : normalizeDateOnly "2024-02-29" = some "2024-02-29" := by decide

example : normalizeDateOnly "2023-02-29" = none := by decide

example : isFutureDate "2026-10-11" "2026-10-12" = true := by decide

example : isFutureDate "2026-10-11" "2026-10-11" = false := by decide

example : getMesRegistro "2026-10-11" "2026-01-15" = "enero de 2026" := by decide

/-! ## Data model (src/types/database.ts) -/

/-- A case record row (`Expediente`).  `estado` is a `String` because the
database CHECK admits seven stored spellings (the five canonical ones plus
the unaccented variants of the two accented states). -/
structure Expediente where
  id : String
  folio : String
  fecha_presentacion : String
  tipo_derecho : String
  autoridad_responsable : String
  visitador_asignado : String
  estado : String
  fecha_ultimo_movimiento : String
  notas_seguimiento : String
  mes_registro : String
  created_at : String
  updated_at : String
deriving DecidableEq

/-- Create input (`ExpedienteInsert`).  The fields the create validator reads
through `??` are `Option`s (they may be absent at runtime, e.g. in backup
records); the rest are required strings. -/
structure ExpedienteInsert where
  folio : String
  fecha_presentacion : String
  tipo_derecho : String
  autoridad_responsable : String
  visitador_asignado : String
  estado : Option String := none
  fecha_ultimo_movimiento : Option String := none
  notas_seguimiento : Option String := none
  mes_registro : Option String := none
deriving DecidableEq

/-- The insert row produced by `normalizeCreatePayload` (all fields set). -/
structure ExpedienteInsertRow where
  folio : String
  fecha_presentacion : String
  tipo_derecho : String
  autoridad_responsable : String
  visitador_asignado : String
  estado : String
  fecha_ultimo_movimiento : String
  notas_seguimiento : String
  mes_registro : String
deriving DecidableEq

/-- Update patch (`ExpedienteUpdate = Partial<...>`).  A field is `some v`
exactly when the patch carries that field as a string (the source guards
every read with `typeof x === 'string'`); the type's unused `updated_at`
member is never read by the validator and is omitted. -/
structure ExpedienteUpdate where
  folio : Option String := none
  fecha_presentacion : Option String := none
  tipo_derecho : Option String := none
  autoridad_responsable : Option String := none
  visitador_asignado : Option String := none
  estado : Option String := none
  notas_seguimiento : Option String := none
  fecha_ultimo_movimiento : Option String := none
  mes_registro : Option String := none
deriving DecidableEq

/-- The update row built field-by-field by `normalizeUpdatePayload`; a field
is `some v` exactly when the source assigned that key on `payload`. -/
structure ExpedienteUpdateRow where
  folio : Option String := none
  fecha_presentacion : Option String := none
  tipo_derecho : Option String := none
  autoridad_responsable : Option String := none
  visitador_asignado : Option String := none
  estado : Option String := none
  notas_seguimiento : Option String := none
  fecha_ultimo_movimiento : Option String := none
  mes_registro : Option String := none
deriving DecidableEq

/-! ## Record-level validators (src/context/ExpedientesContext.tsx) -/

/-- `normalizeCreatePayload` (ExpedientesContext lines 107-165): the create
validator, mirroring the source's early-return sequence. -/
def normalizeCreatePayload (today : String) (data : ExpedienteInsert) :
    Except String ExpedienteInsertRow :=
  let folio := jsSlice (normalizeFolio data.folio) FIELD_LIMITS.folio
  if folio == "" then .error "El folio es obligatorio." else
  if isValidFolio folio = false then .error "El folio debe usar formato CEDHBC-AAAA-000." else
  match normalizeDateOnly data.fecha_presentacion with
  | none => .error "La fecha de presentacion es invalida."
  | some fechaPresentacion =>
  if isFutureDate today fechaPresentacion then .error "La fecha de presentacion no puede ser futura." else
  let tipoDerecho := truncateText data.tipo_derecho FIELD_LIMITS.tipoDerecho
  if tipoDerecho == "" then .error "El tipo de derecho es obligatorio." else
  let autoridad := truncateText data.autoridad_responsable FIELD_LIMITS.autoridad
  if autoridad == "" then .error "La autoridad responsable es obligatoria." else
  let visitador := truncateText data.visitador_asignado FIELD_LIMITS.visitador
  if visitador == "" then .error "El visitador asignado es obligatorio." else
  let estado := data.estado.getD "Admitida"
  if (ESTADOS.contains estado) = false then .error "El estado seleccionado no es valido." else
  let notas := jsSlice (jsTrim (data.notas_seguimiento.getD "")) FIELD_LIMITS.notas
  match normalizeDateOnly (data.fecha_ultimo_movimiento.getD fechaPresentacion) with
  | none => .error "La fecha de ultimo movimiento es invalida."
  | some fechaMovimiento =>
  if isFutureDate today fechaMovimiento then .error "La fecha de ultimo movimiento no puede ser futura." else
  if jsLt fechaMovimiento fechaPresentacion then
    .error "La fecha de ultimo movimiento no puede ser anterior a la fecha de presentacion."
  else
  let mesRegistro :=
    let t := truncateText (data.mes_registro.getD (getMesRegistro today fechaPresentacion)) 60
    if t == "" then getMesRegistro today fechaPresentacion else t
  .ok {
    folio := folio,
    fecha_presentacion := fechaPresentacion,
    tipo_derecho := tipoDerecho,
    autoridad_responsable := autoridad,
    visitador_asignado := visitador,
    estado := estado,
    fecha_ultimo_movimiento := fechaMovimiento,
    notas_seguimiento := notas,
    mes_registro := mesRegistro }

/-- Update-validator stage for `data.folio` (ExpedientesContext 170-177). -/
def nupFolio (data : ExpedienteUpdate) (p : ExpedienteUpdateRow) :
    Except String ExpedienteUpdateRow :=
  match data.folio with
  | none => .ok p
  | some v =>
    let folio := jsSlice (normalizeFolio v) FIELD_LIMITS.folio
    if folio == "" then .error "El folio no puede quedar vacio." else
    if isValidFolio folio = false then .error "El folio debe usar formato CEDHBC-AAAA-000." else
    .ok { p with folio := some folio }

/-- Update-validator stage for `data.fecha_presentacion` (178-189); also
derives `mes_registro` when it is not already set (it never is at this point
in the source's statement order, which the `getD ""` emptiness test mirrors:
`if (!payload.mes_registro)`). -/
def nupFechaPresentacion (today : String) (data : ExpedienteUpdate)
    (p : ExpedienteUpdateRow) : Except String ExpedienteUpdateRow :=
  match data.fecha_presentacion with
  | none => .ok p
  | some v =>
    match normalizeDateOnly v with
    | none => .error "La fecha de presentacion es invalida."
    | some fecha =>
    if isFutureDate today fecha then .error "La fecha de presentacion no puede ser futura." else
    let p := { p with fecha_presentacion := some fecha }
    if (p.mes_registro.getD "") == "" then
      .ok { p with mes_registro := some (getMesRegistro today fecha) }
    else .ok p

/-- Update-validator stage for `data.tipo_derecho` (191-195). -/
def nupTipoDerecho (data : ExpedienteUpdate) (p : ExpedienteUpdateRow) :
    Except String ExpedienteUpdateRow :=
  match data.tipo_derecho with
  | none => .ok p
  | some v =>
    let t := truncateText v FIELD_LIMITS.tipoDerecho
    if t == "" then .error "El tipo de derecho no puede quedar vacio." else
    .ok { p with tipo_derecho := some t }

/-- Update-validator stage for `data.autoridad_responsable` (197-201). -/
def nupAutoridad (data : ExpedienteUpdate) (p : ExpedienteUpdateRow) :
    Except String ExpedienteUpdateRow :=
  match data.autoridad_responsable with
  | none => .ok p
  | some v =>
    let t := truncateText v FIELD_LIMITS.autoridad
    if t == "" then .error "La autoridad responsable no puede quedar vacia." else
    .ok { p with autoridad_responsable := some t }

/-- Update-validator stage for `data.visitador_asignado` (203-207). -/
def nupVisitador (data : ExpedienteUpdate) (p : ExpedienteUpdateRow) :
    Except String ExpedienteUpdateRow :=
  match data.visitador_asignado with
  | none => .ok p
  | some v =>
    let t := truncateText v FIELD_LIMITS.visitador
    if t == "" then .error "El visitador asignado no puede quedar vacio." else
    .ok { p with visitador_asignado := some t }

/-- Update-validator stage for `data.estado` (209-215). -/
def nupEstado (data : ExpedienteUpdate) (p : ExpedienteUpdateRow) :
    Except String ExpedienteUpdateRow :=
  match data.estado with
  | none => .ok p
  | some v =>
    if (ESTADOS.contains v) = false then .error "El estado seleccionado no es valido." else
    .ok { p with estado := some v }

/-- Update-validator stage for `data.notas_seguimiento` (217-219). -/
def nupNotas (data : ExpedienteUpdate) (p : ExpedienteUpdateRow) :
    Except String ExpedienteUpdateRow :=
  match data.notas_seguimiento with
  | none => .ok p
  | some v => .ok { p with notas_seguimiento := some (jsSlice (jsTrim v) FIELD_LIMITS.notas) }

/-- Update-validator stage for `data.fecha_ultimo_movimiento` (221-228). -/
def nupFechaMovimiento (today : String) (data : ExpedienteUpdate)
    (p : ExpedienteUpdateRow) : Except String ExpedienteUpdateRow :=
  match data.fecha_ultimo_movimiento with
  | none => .ok p
  | some v =>
    match normalizeDateOnly v with
    | none => .error "La fecha de ultimo movimiento es invalida."
    | some fecha =>
    if isFutureDate today fecha then .error "La fecha de ultimo movimiento no puede ser futura." else
    .ok { p with fecha_ultimo_movimiento := some fecha }

/-- Update-validator stage for `data.mes_registro` (230-234). -/
def nupMesRegistro (data : ExpedienteUpdate) (p : ExpedienteUpdateRow) :
    Except String ExpedienteUpdateRow :=
  match data.mes_registro with
  | none => .ok p
  | some v =>
    let t := truncateText v 60
    if t == "" then .error "El mes de registro no puede quedar vacio." else
    .ok { p with mes_registro := some t }

/-- Cross-field date check of the update validator (236-245): both dates in
the patch and movement before filing is rejected. -/
def nupCrossDates (p : ExpedienteUpdateRow) : Except String ExpedienteUpdateRow :=
  match p.fecha_presentacion, p.fecha_ultimo_movimiento with
  | some fp, some fm =>
    if jsLt fm fp then
      .error "La fecha de ultimo movimiento no puede ser anterior a la fecha de presentacion."
    else .ok p
  | _, _ => .ok p

/-- Whether `payload` has no assigned key (`Object.keys(payload).length === 0`). -/
def emptyPayload (p : ExpedienteUpdateRow) : Bool :=
  p.folio.isNone && p.fecha_presentacion.isNone && p.tipo_derecho.isNone &&
  p.autoridad_responsable.isNone && p.visitador_asignado.isNone && p.estado.isNone &&
  p.notas_seguimiento.isNone && p.fecha_ultimo_movimiento.isNone && p.mes_registro.isNone

/-- Empty-patch rejection of the update validator (247-249). -/
def nupEmptyCheck (p : ExpedienteUpdateRow) : Except String ExpedienteUpdateRow :=
  if emptyPayload p then .error "No hay cambios para guardar." else .ok p

/-- The `shouldTouchLastMovement` auto-advance of the update validator
(251-261): when no explicit last-movement date was set but one of the tracked
fields was, stamp today's date. -/
def nupTouch (today : String) (p : ExpedienteUpdateRow) : ExpedienteUpdateRow :=
  let shouldTouchLastMovement :=
    p.fecha_ultimo_movimiento.isNone &&
    (p.estado.isSome || p.tipo_derecho.isSome || p.autoridad_responsable.isSome ||
     p.visitador_asignado.isSome || p.notas_seguimiento.isSome)
  if shouldTouchLastMovement then { p with fecha_ultimo_movimiento := some today } else p

/-- `normalizeUpdatePayload` (ExpedientesContext 167-264): the update
validator, as the sequence of per-field stages in the source's statement
order followed by the cross-field check, the empty-patch check and the
last-movement auto-advance. -/
def normalizeUpdatePayload (today : String) (data : ExpedienteUpdate) :
    Except String ExpedienteUpdateRow :=
  (((((((((nupFolio data {}).bind
    (nupFechaPresentacion today data)).bind
    (nupTipoDerecho data)).bind
    (nupAutoridad data)).bind
    (nupVisitador data)).bind
    (nupEstado data)).bind
    (nupNotas data)).bind
    (nupFechaMovimiento today data)).bind
    (nupMesRegistro data)).bind
    (fun p => (nupCrossDates p).bind
    (fun p => (nupEmptyCheck p).map (nupTouch today)))

/-! ## Repository operations (src/context/ExpedientesContext.tsx) -/

/-- Hexadecimal digit (both cases, regex `i` flag). -/
def isHexChar (c : Char) : Bool :=
  isDigitChar c || (97 ≤ c.toNat && c.toNat ≤ 102) || (65 ≤ c.toNat && c.toNat ≤ 70)

/-- Split a character list at every dash. -/
def splitDash : List Char → List (List Char)
  | [] => [[]]
  | c :: cs =>
    if c == '-' then [] :: splitDash cs
    else
      match splitDash cs with
      | seg :: rest => (c :: seg) :: rest
      | [] => [[c]]

/-- `isUuid` (ExpedientesContext 103-105): the case-insensitive v1-v5 UUID
regex (8-4-4-4-12 hex digits, version digit 1-5, variant 8/9/a/b). -/
def isUuid (s : String) : Bool :=
  match splitDash s.data with
  | [a, b, c, d, e] =>
    a.length == 8 && a.all isHexChar &&
    b.length == 4 && b.all isHexChar &&
    (match c with
     | c1 :: cr => (49 ≤ c1.toNat && c1.toNat ≤ 53) && cr.length == 3 && cr.all isHexChar
     | [] => false) &&
    (match d with
     | d1 :: dr =>
       (d1 == '8' || d1 == '9' || d1 == 'a' || d1 == 'b' || d1 == 'A' || d1 == 'B') &&
       dr.length == 3 && dr.all isHexChar
     | [] => false) &&
    e.length == 12 && e.all isHexChar
  | _ => false

/-- Result of `createExpediente`: either a local error (validation or
duplicate-folio fast-fail, returned before any network call and without
touching the snapshot) or the insert row handed to the backend. -/
inductive CreateResult where
  | localError (msg : String)
  | insert (payload : ExpedienteInsertRow)
deriving DecidableEq

/-- `createExpediente` (ExpedientesContext 326-355) up to its first network
call: validate, then fast-fail on a case-insensitive folio collision with the
current snapshot, else hand the payload to the backend insert. -/
def createExpediente (today : String) (expedientes : List Expediente)
    (data : ExpedienteInsert) : CreateResult :=
  match normalizeCreatePayload today data with
  | .error e => .localError e
  | .ok payload =>
    if expedientes.any (fun item => jsToUpper item.folio == jsToUpper payload.folio) then
      .localError ("El folio " ++ payload.folio ++ " ya existe.")
    else
      .insert payload

/-- Result of `updateExpediente` up to its first network call. -/
inductive UpdateResult where
  | localError (msg : String)
  | update (payload : ExpedienteUpdateRow)
deriving DecidableEq

/-- Effective-date guard of `updateExpediente` (381-392): the patched-or-
current movement date may neither precede the patched-or-current filing date
nor lie in the future. -/
def updateDateGuard (today : String) (current : Expediente)
    (payload : ExpedienteUpdateRow) : UpdateResult :=
  let nextFechaPresentacion := payload.fecha_presentacion.getD current.fecha_presentacion
  let nextFechaMovimiento := payload.fecha_ultimo_movimiento.getD current.fecha_ultimo_movimiento
  if jsLt nextFechaMovimiento nextFechaPresentacion then
    .localError "La fecha de ultimo movimiento no puede ser anterior a la fecha de presentacion."
  else if isFutureDate today nextFechaMovimiento then
    .localError "La fecha de ultimo movimiento no puede ser futura."
  else
    .update payload

/-- `updateExpediente` (ExpedientesContext 357-411) up to its first network
call: id-format check, snapshot lookup (not-found is a local error), update
validation, folio-collision fast-fail, then the effective-date guard. -/
def updateExpediente (today : String) (expedientes : List Expediente) (id : String)
    (data : ExpedienteUpdate) : UpdateResult :=
  if isUuid id = false then .localError "Identificador de expediente invalido." else
  match expedientes.find? (fun item => item.id == id) with
  | none => .localError "No se encontro el expediente a actualizar."
  | some current =>
    match normalizeUpdatePayload today data with
    | .error e => .localError e
    | .ok payload =>
      match payload.folio with
      | some f =>
        if expedientes.any (fun item => item.id != id && jsToUpper item.folio == jsToUpper f) then
          .localError ("El folio " ++ f ++ " ya existe.")
        else updateDateGuard today current payload
      | none => updateDateGuard today current payload

/-- Result of `deleteExpediente` up to its first network call. -/
inductive DeleteResult where
  | localError (msg : String)
  | networkDelete (id : String)
deriving DecidableEq

/-- `deleteExpediente` (ExpedientesContext 413-427) up to its first network
call.  The snapshot parameter is deliberately unused: the source performs no
snapshot lookup before issuing the backend delete — only the id-format
check. -/
def deleteExpediente (_expedientes : List Expediente) (id : String) : DeleteResult :=
  if isUuid id = false then .localError "Identificador de expediente invalido."
  else .networkDelete id

-- sanity examples
example : isUuid "123e4567-e89b-12d3-a456-426614174000" = true := by decide

example : isUuid "123e4567-e89b-12d3-7456-426614174000" = false := by decide

example : isUuid "not-a-uuid" = false := by decide

/-! ## Notification center (src/context/NotificationsContext.tsx) -/

/-- `NotificationType`: 'success' | 'warning' | 'info' | 'error'. -/
inductive NotifType where
  | success
  | warning
  | info
  | error
deriving DecidableEq

/-- A notification entry.  `timestamp` is the JS `Date` in epoch
milliseconds. -/
structure Notification where
  id : String
  type : NotifType
  title : String
  message : String
  read : Bool
  timestamp : Nat
deriving DecidableEq

/-- Descending-timestamp order used by every notification re-sort:
`(a, b) => b.timestamp.getTime() - a.timestamp.getTime()`. -/
def notifGE (a b : Notification) : Prop :=
  b.timestamp ≤ a.timestamp

instance : DecidableRel notifGE :=
  fun a b => Nat.decLe b.timestamp a.timestamp

instance : IsTotal Notification notifGE :=
  ⟨fun a b => Nat.le_total b.timestamp a.timestamp⟩

instance : IsTrans Notification notifGE :=
  ⟨fun _ _ _ hab hbc => Nat.le_trans hbc hab⟩

/-- Stable descending-timestamp sort (model of the ES2019+ stable
`Array.prototype.sort` with the comparator above). -/
def sortNotifs (l : List Notification) : List Notification :=
  l.insertionSort notifGE

/-- `MAX_NOTIFICATIONS` (NotificationsContext line 34). -/
def MAX_NOTIFICATIONS : Nat := 80

/-- Input of `addNotification`: `Omit<Notification, 'id' | 'read' | 'timestamp'>`. -/
structure NewNotification where
  type : NotifType
  title : String
  message : String
deriving DecidableEq

/-- `addNotification` (NotificationsContext 71-84).  `newId` stands for the
fresh `crypto.randomUUID()` and `now` for `new Date()`. -/
def addNotification (newId : String) (now : Nat) (n : NewNotification)
    (prev : List Notification) : List Notification :=
  let notification : Notification :=
    { id := newId, type := n.type, title := n.title, message := n.message,
      read := false, timestamp := now }
  (sortNotifs (notification :: prev)).take MAX_NOTIFICATIONS

/-- Input of `upsertSystemNotification`:
`Omit<Notification, 'id' | 'timestamp' | 'read'> & { read?: boolean }`. -/
structure SystemNotifInput where
  type : NotifType
  title : String
  message : String
  read : Option Bool := none
deriving DecidableEq

/-- `upsertSystemNotification` (NotificationsContext 86-129): keyed upsert —
create when the key is absent; leave the list untouched when the stored
content equals the incoming content; otherwise update in place, refresh the
timestamp and re-sort. -/
def upsertSystemNotification (now : Nat) (id : String) (n : SystemNotifInput)
    (prev : List Notification) : List Notification :=
  match prev.find? (fun item => item.id == id) with
  | none =>
    let created : Notification :=
      { id := id, type := n.type, title := n.title, message := n.message,
        read := n.read.getD false, timestamp := now }
    (sortNotifs (created :: prev)).take MAX_NOTIFICATIONS
  | some found =>
    let contentChanged :=
      found.title != n.title || found.message != n.message || found.type != n.type ||
      found.read != (n.read.getD found.read)
    if contentChanged then
      (sortNotifs (prev.map (fun item =>
        if item.id == id then
          { item with
            type := n.type,
            title := n.title,
            message := n.message,
            read := n.read.getD false,
            timestamp := now }
        else item))).take MAX_NOTIFICATIONS
    else prev

/-! ## Status projections (Dashboard.tsx, Reportes.tsx) -/

/-- Bool substring containment (JS `String.prototype.includes`). -/
def containsSeq (needle : List Char) : List Char → Bool
  | [] => needle.isEmpty
  | c :: cs => needle.isPrefixOf (c :: cs) || containsSeq needle cs

/-- JS `hay.includes(needle)`. -/
def jsIncludes (hay needle : String) : Bool :=
  containsSeq needle.data hay.data

/-- `normalizeEstado` (Dashboard.tsx 395-400): fold both spellings of the two
accented states onto unaccented bucket labels; other values pass through. -/
def normalizeEstado (value : String) : String :=
  let lower := jsToLower value
  if jsIncludes lower "integr" then "En integracion"
  else if jsIncludes lower "concili" then "En conciliacion"
  else value

/-- Increment `key` in an insertion-ordered count list (model of
`counts[k] = (counts[k] ?? 0) + 1` on a JS object plus `Object.entries`,
which preserves first-insertion order for these non-numeric keys). -/
def bumpKey (key : String) : List (String × Nat) → List (String × Nat)
  | [] => [(key, 1)]
  | (k, v) :: rest => if k == key then (k, v + 1) :: rest else (k, v) :: bumpKey key rest

/-- `Object.entries` of the count object built by iterating `keys`. -/
def countsByKey (keys : List String) : List (String × Nat) :=
  keys.foldl (fun acc k => bumpKey k acc) []

/-- The report projection `byEstado` (Reportes.tsx 176-180): counts of the
in-period rows keyed by the RAW stored `estado` string. -/
def reportByEstado (enPeriodo : List Expediente) : List (String × Nat) :=
  countsByKey (enPeriodo.map (fun item => item.estado))

/-- The dashboard projection `estadoData` (Dashboard.tsx 475-480): counts
keyed by `normalizeEstado(e.estado)`. -/
def dashboardEstadoData (expedientes : List Expediente) : List (String × Nat) :=
  countsByKey (expedientes.map (fun e => normalizeEstado e.estado))

/-! ## Backup import (src/components/configuracion/Configuracion.tsx) -/

/-- `sanitizeDate` (Configuracion 45-58): non-strings and short strings fall
back to today; parseable dates are clamped to today; unparseable fall back to
today. -/
def sanitizeDate (today : String) (value : Option String) : String :=
  match value with
  | none => today
  | some s =>
    if s.length < 10 then today
    else
      match normalizeDateOnly s with
      | none => today
      | some normalized => if jsLt today normalized then today else normalized

/-- `sanitizeEstado` (Configuracion 60-71): exact canonical spellings pass;
otherwise fuzzy keyword mapping; default 'Admitida'. -/
def sanitizeEstado (value : Option String) : String :=
  let normalized := match value with | some s => jsTrim s | none => ""
  if ESTADOS.contains normalized then normalized
  else if jsIncludes (jsToLower normalized) "integr" then "En integración"
  else if jsIncludes (jsToLower normalized) "concili" then "En conciliación"
  else if jsIncludes (jsToLower normalized) "archiv" then "Archivada"
  else if jsIncludes (jsToLower normalized) "resuel" then "Resuelta"
  else "Admitida"

/-- One JSON object of a backup file; a field is `some s` exactly when the
record carries that key with a string value (non-string values other than
the absent case are out of the model's scope; the source `String()`-coerces
them). -/
structure BackupRecord where
  folio : Option String := none
  fecha_presentacion : Option String := none
  fecha_ultimo_movimiento : Option String := none
  tipo_derecho : Option String := none
  autoridad_responsable : Option String := none
  visitador_asignado : Option String := none
  estado : Option String := none
  notas_seguimiento : Option String := none
  mes_registro : Option String := none
deriving DecidableEq

/-- Per-record body of `parseBackupRecords` (Configuracion 83-109): normalize
every field with defaults, then DROP the record (`return null`) when the
folio is empty/invalid or a required text field is empty. -/
def parseBackupRecord (today fallbackVisitador : String) (record : BackupRecord) :
    Option ExpedienteInsert :=
  let folio := jsSlice (normalizeFolio (record.folio.getD "")) FIELD_LIMITS.folio
  let fechaPresentacion := sanitizeDate today record.fecha_presentacion
  let fechaUltimoMovimiento :=
    sanitizeDate today (some (record.fecha_ultimo_movimiento.getD fechaPresentacion))
  let tipoDerecho := jsSlice (normalizeWhitespace (record.tipo_derecho.getD "Otro")) FIELD_LIMITS.tipoDerecho
  let autoridad := jsSlice (normalizeWhitespace (record.autoridad_responsable.getD "No especificada")) FIELD_LIMITS.autoridad
  let visitador := jsSlice (normalizeWhitespace (record.visitador_asignado.getD fallbackVisitador)) FIELD_LIMITS.visitador
  let estado := sanitizeEstado record.estado
  let notas := jsSlice (jsTrim (record.notas_seguimiento.getD "")) FIELD_LIMITS.notas
  if folio == "" || isValidFolio folio = false || tipoDerecho == "" || autoridad == "" || visitador == "" then
    none
  else
    some {
      folio := folio,
      fecha_presentacion := fechaPresentacion,
      tipo_derecho := tipoDerecho,
      autoridad_responsable := autoridad,
      visitador_asignado := visitador,
      estado := some estado,
      fecha_ultimo_movimiento := some fechaUltimoMovimiento,
      notas_seguimiento := some notas,
      mes_registro := some (record.mes_registro.getD (getMesRegistro today fechaPresentacion)) }

/-- `parseBackupRecords` (Configuracion 73-111): map each submitted object
and silently filter out the dropped ones. -/
def parseBackupRecords (today fallbackVisitador : String) (source : List BackupRecord) :
    List ExpedienteInsert :=
  source.filterMap (parseBackupRecord today fallbackVisitador)

/-- The three per-record counters of `handleImportRespaldo`. -/
structure ImportCounts where
  imported : Nat
  skipped : Nat
  failed : Nat
deriving DecidableEq

/-- The classification loop of `handleImportRespaldo` (Configuracion
268-287): per record — already-seen folio counts as skipped; a
`createExpediente` local error counts as failed; otherwise the record counts
as imported (the backend insert is modelled as succeeding) and its folio
joins the seen set.  `createExpediente` closes over the snapshot captured
when the loop started, exactly as the source's stale closure does. -/
def importLoop (today : String) (snapshot : List Expediente) (existingFolios : List String) :
    List ExpedienteInsert → ImportCounts
  | [] => { imported := 0, skipped := 0, failed := 0 }
  | record :: rest =>
    if existingFolios.contains (jsToUpper record.folio) then
      let c := importLoop today snapshot existingFolios rest
      { c with skipped := c.skipped + 1 }
    else
      match createExpediente today snapshot record with
      | .localError _ =>
        let c := importLoop today snapshot existingFolios rest
        { c with failed := c.failed + 1 }
      | .insert _ =>
        let c := importLoop today snapshot (jsToUpper record.folio :: existingFolios) rest
        { c with imported := c.imported + 1 }

/-- `handleImportRespaldo` (Configuracion 221-305) restricted to its
classification outcome: parse the submitted objects, cap at 5000 records,
seed the seen-folio set from the current snapshot, and run the loop. -/
def handleImportRespaldo (today fallbackVisitador : String) (snapshot : List Expediente)
    (raw : List BackupRecord) : ImportCounts :=
  let parsedRecords := parseBackupRecords today fallbackVisitador raw
  let records := parsedRecords.take 5000
  importLoop today snapshot (snapshot.map (fun item => jsToUpper item.folio)) records

-- sanity examples
example : normalizeEstado "En integración" = "En integracion" := by decide

example : normalizeEstado "En integracion" = "En integracion" := by decide

example : sanitizeEstado (some " en integracion ") = "En integración" := by decide

/-! ## Helper lemmas: characters and whitespace -/

theorem toNat_ofNat_valid (n : Nat) (h : n.isValidChar) : (Char.ofNat n).toNat = n := by
  unfold Char.ofNat
  rw [dif_pos h]
  rfl

theorem toNat_toUpperChar_lt (c : Char) :
    (toUpperChar c).toNat < 97 ∨ 122 < (toUpperChar c).toNat := by
  unfold toUpperChar
  by_cases h : 97 ≤ c.toNat ∧ c.toNat ≤ 122
  · have hval : (c.toNat - 32).isValidChar := by
      left
      omega
    rw [if_pos (by simp [h.1, h.2])]
    rw [toNat_ofNat_valid _ hval]
    omega
  · rw [if_neg (by simpa using fun h1 h2 => h ⟨h1, h2⟩)]
    omega

theorem toUpperChar_idem (c : Char) : toUpperChar (toUpperChar c) = toUpperChar c := by
  have h := toNat_toUpperChar_lt c
  generalize toUpperChar c = u at h ⊢
  unfold toUpperChar
  rcases h with h | h <;> rw [if_neg (by simp; omega)]

theorem replaceRunsAux_eq_self (p : Char → Bool) (r : Char) (b : Bool) (l : List Char)
    (h : ∀ c ∈ l, p c = false) : replaceRunsAux p r b l = l := by
  induction l generalizing b with
  | nil => rfl
  | cons c cs ih =>
    have hc : p c = false := h c (List.mem_cons_self c cs)
    simp only [replaceRunsAux, hc]
    simp only [Bool.false_eq_true, if_false]
    rw [ih _ (fun x hx => h x (List.mem_cons_of_mem c hx))]

theorem not_p_of_mem_replaceRunsAux (p : Char → Bool) (r : Char) (hr : p r = false)
    (b : Bool) (l : List Char) : ∀ c ∈ replaceRunsAux p r b l, p c = false := by
  induction l generalizing b with
  | nil => intro c hc; simp [replaceRunsAux] at hc
  | cons x xs ih =>
    intro c hc
    simp only [replaceRunsAux] at hc
    by_cases hx : p x = true
    · rw [if_pos hx] at hc
      rcases List.mem_append.mp hc with hc | hc
      · rcases b with _ | _
        · simp at hc
          rwa [hc]
        · simp at hc
      · exact ih true c hc
    · rw [if_neg hx] at hc
      rcases List.mem_cons.mp hc with hc | hc
      · rw [hc]
        exact Bool.eq_false_iff.mpr hx
      · exact ih false c hc

theorem mem_replaceRunsAux (p : Char → Bool) (r : Char) (b : Bool) (l : List Char) :
    ∀ c ∈ replaceRunsAux p r b l, c = r ∨ c ∈ l := by
  induction l generalizing b with
  | nil => intro c hc; simp [replaceRunsAux] at hc
  | cons x xs ih =>
    intro c hc
    simp only [replaceRunsAux] at hc
    by_cases hx : p x = true
    · rw [if_pos hx] at hc
      rcases List.mem_append.mp hc with hc | hc
      · rcases b with _ | _
        · simp at hc
          exact Or.inl hc
        · simp at hc
      · rcases ih true c hc with h | h
        · exact Or.inl h
        · exact Or.inr (List.mem_cons_of_mem x h)
    · rw [if_neg hx] at hc
      rcases List.mem_cons.mp hc with hc | hc
      · exact Or.inr (hc ▸ List.mem_cons_self x xs)
      · rcases ih false c hc with h | h
        · exact Or.inl h
        · exact Or.inr (List.mem_cons_of_mem x h)

theorem dropWhile_eq_self_of_not (l : List Char) (h : ∀ c ∈ l, isJsWs c = false) :
    l.dropWhile isJsWs = l := by
  cases l with
  | nil => rfl
  | cons c cs =>
    rw [List.dropWhile_cons]
    rw [h c (List.mem_cons_self c cs)]
    simp

theorem trimChars_eq_self (l : List Char) (h : ∀ c ∈ l, isJsWs c = false) :
    trimChars l = l := by
  unfold trimChars
  rw [dropWhile_eq_self_of_not l h]
  rw [dropWhile_eq_self_of_not l.reverse (fun c hc => h c (List.mem_reverse.mp hc))]
  exact List.reverse_reverse l

theorem map_eq_self_of_fixed (f : Char → Char) (l : List Char)
    (h : ∀ c ∈ l, f c = c) : l.map f = l := by
  induction l with
  | nil => rfl
  | cons c cs ih =>
    rw [List.map_cons, h c (List.mem_cons_self c cs),
      ih (fun x hx => h x (List.mem_cons_of_mem c hx))]

/-! ## Helper lemmas: normalizeFolio -/

theorem not_wsOrSlash_of_mem_normalizeFolio (s : String) :
    ∀ c ∈ (normalizeFolio s).data, wsOrSlash c = false := by
  intro c hc
  exact not_p_of_mem_replaceRunsAux wsOrSlash '-' (by decide) false _ c hc

theorem not_ws_of_mem_normalizeFolio (s : String) :
    ∀ c ∈ (normalizeFolio s).data, isJsWs c = false := by
  intro c hc
  have h := not_wsOrSlash_of_mem_normalizeFolio s c hc
  unfold wsOrSlash at h
  exact (Bool.or_eq_false_iff.mp h).1

theorem upper_fixed_of_mem_normalizeFolio (s : String) :
    ∀ c ∈ (normalizeFolio s).data, toUpperChar c = c := by
  intro c hc
  rcases mem_replaceRunsAux wsOrSlash '-' false _ c hc with h | h
  · rw [h]; decide
  · rcases List.mem_map.mp h with ⟨y, _, hy⟩
    rw [← hy]
    exact toUpperChar_idem y

theorem normalizeFolio_idem (s : String) :
    normalizeFolio (normalizeFolio s) = normalizeFolio s := by
  have hno_ws := not_ws_of_mem_normalizeFolio s
  have hno := not_wsOrSlash_of_mem_normalizeFolio s
  have hup := upper_fixed_of_mem_normalizeFolio s
  unfold normalizeFolio normalizeWhitespace
  congr 1
  have h1 : replaceRuns isJsWs ' ' (normalizeFolio s).data = (normalizeFolio s).data :=
    replaceRunsAux_eq_self _ _ _ _ hno_ws
  have h2 : trimChars (normalizeFolio s).data = (normalizeFolio s).data :=
    trimChars_eq_self _ hno_ws
  have h3 : (normalizeFolio s).data.map toUpperChar = (normalizeFolio s).data :=
    map_eq_self_of_fixed _ _ hup
  calc replaceRuns wsOrSlash '-'
        ((⟨trimChars (replaceRuns isJsWs ' ' (normalizeFolio s).data)⟩ : String).data.map toUpperChar)
      = replaceRuns wsOrSlash '-' ((normalizeFolio s).data.map toUpperChar) := by
        rw [show ((⟨trimChars (replaceRuns isJsWs ' ' (normalizeFolio s).data)⟩ : String).data
            = trimChars (replaceRuns isJsWs ' ' (normalizeFolio s).data)) from rfl, h1, h2]
    _ = replaceRuns wsOrSlash '-' (normalizeFolio s).data := by rw [h3]
    _ = (normalizeFolio s).data := replaceRunsAux_eq_self _ _ _ _ hno

theorem folioCore_length (l : List Char) (h : folioCore l = true) : l.length ≤ 18 := by
  unfold folioCore at h
  split at h
  · simp only [Bool.and_eq_true, decide_eq_true_eq] at h
    simp
    omega
  · simp at h

theorem normalizeWhitespace_eq_self_of_no_ws (s : String)
    (h : ∀ c ∈ s.data, isJsWs c = false) : normalizeWhitespace s = s := by
  unfold normalizeWhitespace
  rw [show replaceRuns isJsWs ' ' s.data = s.data from replaceRunsAux_eq_self _ _ _ _ h]
  rw [trimChars_eq_self _ h]

theorem isValidFolio_of_slice (f : String)
    (h : isValidFolio (jsSlice (normalizeFolio f) FIELD_LIMITS.folio) = true) :
    isValidFolio (normalizeFolio f) = true := by
  have hno_ws := not_ws_of_mem_normalizeFolio f
  have hslice : ∀ c ∈ (jsSlice (normalizeFolio f) FIELD_LIMITS.folio).data, isJsWs c = false := by
    intro c hc
    exact hno_ws c (List.take_subset _ _ hc)
  unfold isValidFolio at h ⊢
  rw [normalizeWhitespace_eq_self_of_no_ws _ hslice] at h
  rw [normalizeWhitespace_eq_self_of_no_ws _ hno_ws]
  by_cases hlen : (normalizeFolio f).data.length ≤ FIELD_LIMITS.folio
  · rwa [show (jsSlice (normalizeFolio f) FIELD_LIMITS.folio).data
        = (normalizeFolio f).data.take FIELD_LIMITS.folio from rfl,
      List.take_of_length_le hlen] at h
  · exfalso
    have h18 := folioCore_length _ h
    rw [show (jsSlice (normalizeFolio f) FIELD_LIMITS.folio).data
        = (normalizeFolio f).data.take FIELD_LIMITS.folio from rfl] at h18
    rw [List.length_take] at h18
    unfold FIELD_LIMITS.folio at h18 hlen
    omega

/-! ## Helper lemmas: the create validator -/

theorem normalizeCreatePayload_ok (today : String) (data : ExpedienteInsert)
    (payload : ExpedienteInsertRow)
    (h : normalizeCreatePayload today data = .ok payload) :
    payload.folio = jsSlice (normalizeFolio data.folio) FIELD_LIMITS.folio ∧
    isValidFolio payload.folio = true ∧
    normalizeDateOnly data.fecha_presentacion = some payload.fecha_presentacion ∧
    isFutureDate today payload.fecha_presentacion = false ∧
    normalizeDateOnly (data.fecha_ultimo_movimiento.getD payload.fecha_presentacion)
      = some payload.fecha_ultimo_movimiento ∧
    isFutureDate today payload.fecha_ultimo_movimiento = false ∧
    jsLt payload.fecha_ultimo_movimiento payload.fecha_presentacion = false := by
  unfold normalizeCreatePayload at h
  simp only [] at h
  repeat' split at h
  any_goals exact Except.noConfusion h
  all_goals rw [Except.ok.injEq] at h
  all_goals subst h
  all_goals refine ⟨rfl, ?_, ?_, ?_, ?_, ?_, ?_⟩ <;> simp_all

deriving instance DecidableEq for Except

/-! ## Claim C6 -/

/-- C6: `normalizeFolio` is idempotent (for every string `f`,
`normalizeFolio (normalizeFolio f) = normalizeFolio f`), and for every create
input accepted by the create validator the normalized folio satisfies
`isValidFolio`. -/
theorem spec_C6_folio_invariants (f today : String) (data : ExpedienteInsert)
    (payload : ExpedienteInsertRow)
    (h : normalizeCreatePayload today data = .ok payload) :
    normalizeFolio (normalizeFolio f) = normalizeFolio f ∧
    isValidFolio (normalizeFolio data.folio) = true := by
  refine ⟨normalizeFolio_idem f, ?_⟩
  have hfacts := normalizeCreatePayload_ok today data payload h
  have hval : isValidFolio (jsSlice (normalizeFolio data.folio) FIELD_LIMITS.folio) = true := by
    rw [← hfacts.1]
    exact hfacts.2.1
  exact isValidFolio_of_slice _ hval

/-- Witness for C6 at a concrete accepted create input. -/
theorem spec_C6_folio_invariants_witness :
    normalizeFolio (normalizeFolio " cedhbc 2026/001 ") = normalizeFolio " cedhbc 2026/001 " ∧
    isValidFolio (normalizeFolio "CEDHBC-2026-001") = true :=
  spec_C6_folio_invariants " cedhbc 2026/001 " "2026-10-11"
    { folio := "CEDHBC-2026-001", fecha_presentacion := "2026-01-15",
      tipo_derecho := "Derecho a la Salud", autoridad_responsable := "Autoridad X",
      visitador_asignado := "Visitador General I" }
    { folio := "CEDHBC-2026-001", fecha_presentacion := "2026-01-15",
      tipo_derecho := "Derecho a la Salud", autoridad_responsable := "Autoridad X",
      visitador_asignado := "Visitador General I", estado := "Admitida",
      fecha_ultimo_movimiento := "2026-01-15", notas_seguimiento := "",
      mes_registro := "enero de 2026" }
    (by decide)

/-! ## Concrete sample data shared by witnesses -/

/-- A concrete stored case record (a valid server row). -/
def sampleExp : Expediente :=
  { id := "11111111-1111-1111-8111-111111111111", folio := "CEDHBC-2026-001",
    fecha_presentacion := "2026-01-15", tipo_derecho := "Derecho a la Salud",
    autoridad_responsable := "Autoridad X", visitador_asignado := "Visitador General I",
    estado := "Admitida", fecha_ultimo_movimiento := "2026-01-15",
    notas_seguimiento := "", mes_registro := "enero de 2026",
    created_at := "2026-01-15T10:00:00+00:00", updated_at := "2026-01-15T10:00:00+00:00" }

/-- A valid UUID that is not the id of `sampleExp`. -/
def otherUuid : String := "123e4567-e89b-12d3-a456-426614174000"

/-! ## Claim C2 -/

/-- C2: when the create validator accepts the input and the snapshot already
holds a record whose folio equals the normalized folio up to letter case,
`createExpediente` fast-fails with the duplicate-folio local error (a
`localError` is returned before the network insert and without touching the
snapshot). -/
theorem spec_C2_duplicate_folio_create (today : String) (snapshot : List Expediente)
    (data : ExpedienteInsert) (payload : ExpedienteInsertRow)
    (hok : normalizeCreatePayload today data = .ok payload)
    (hdup : snapshot.any (fun item => jsToUpper item.folio == jsToUpper payload.folio) = true) :
    createExpediente today snapshot data =
      .localError ("El folio " ++ payload.folio ++ " ya existe.") := by
  unfold createExpediente
  rw [hok]
  simp only [hdup, if_true]

/-- Witness for C2: the second of two creates whose folios differ only in
case is rejected with the uniqueness-conflict error. -/
theorem spec_C2_duplicate_folio_create_witness :
    createExpediente "2026-10-11" [sampleExp]
      { folio := "cedhbc-2026-001", fecha_presentacion := "2026-02-01",
        tipo_derecho := "Derecho a la Vivienda", autoridad_responsable := "Autoridad Y",
        visitador_asignado := "Visitador General II" } =
      .localError "El folio CEDHBC-2026-001 ya existe." :=
  spec_C2_duplicate_folio_create "2026-10-11" [sampleExp]
    { folio := "cedhbc-2026-001", fecha_presentacion := "2026-02-01",
      tipo_derecho := "Derecho a la Vivienda", autoridad_responsable := "Autoridad Y",
      visitador_asignado := "Visitador General II" }
    { folio := "CEDHBC-2026-001", fecha_presentacion := "2026-02-01",
      tipo_derecho := "Derecho a la Vivienda", autoridad_responsable := "Autoridad Y",
      visitador_asignado := "Visitador General II", estado := "Admitida",
      fecha_ultimo_movimiento := "2026-02-01", notas_seguimiento := "",
      mes_registro := "febrero de 2026" }
    (by decide) (by decide)

/-! ## Claim C3 -/

/-- C3 counterexample: for a well-formed id absent from the snapshot,
`deleteExpediente` does NOT return a local not-found error — it goes
straight to the backend delete (the source has no snapshot lookup in
`deleteExpediente`), refuting the claim that both update and delete return a
not-found error locally with no network call. -/
theorem spec_C3_counterexample :
    (∀ e ∈ [sampleExp], e.id ≠ otherUuid) ∧
    deleteExpediente [sampleExp] otherUuid = .networkDelete otherUuid ∧
    ∀ msg, deleteExpediente [sampleExp] otherUuid ≠ .localError msg := by
  refine ⟨by decide, by decide, ?_⟩
  intro msg h
  rw [show deleteExpediente [sampleExp] otherUuid = .networkDelete otherUuid from by decide] at h
  exact DeleteResult.noConfusion h

/-- C3 amended: for an id of valid UUID format absent from the snapshot,
`updateExpediente` returns the local not-found error (no network call,
snapshot untouched), while `deleteExpediente` performs no snapshot lookup at
all — it only rejects malformed ids locally and otherwise issues the backend
delete even for absent ids. -/
theorem spec_C3_not_found_amended (today : String) (snapshot : List Expediente)
    (id : String) (data : ExpedienteUpdate)
    (huuid : isUuid id = true)
    (habsent : snapshot.find? (fun item => item.id == id) = none) :
    updateExpediente today snapshot id data =
      .localError "No se encontro el expediente a actualizar." ∧
    deleteExpediente snapshot id = .networkDelete id := by
  constructor
  · unfold updateExpediente
    rw [if_neg (by simp [huuid]), habsent]
  · unfold deleteExpediente
    rw [if_neg (by simp [huuid])]

/-- Witness for the amended C3 at a concrete absent id. -/
theorem spec_C3_not_found_amended_witness :
    updateExpediente "2026-10-11" [sampleExp] otherUuid {} =
      .localError "No se encontro el expediente a actualizar." ∧
    deleteExpediente [sampleExp] otherUuid = .networkDelete otherUuid :=
  spec_C3_not_found_amended "2026-10-11" [sampleExp] otherUuid {} (by decide) (by decide)

/-! ## Claim C10 -/

/-- C10: for an id present in the snapshot (server ids are well-formed
UUIDs), an update patch carrying no recognized field is rejected locally with
'No hay cambios para guardar.' — a `localError` before any network call, so
the snapshot is untouched. -/
theorem spec_C10_empty_patch (today : String) (snapshot : List Expediente)
    (id : String) (cur : Expediente) (data : ExpedienteUpdate)
    (huuid : isUuid id = true)
    (hfound : snapshot.find? (fun item => item.id == id) = some cur)
    (hempty : data = {}) :
    updateExpediente today snapshot id data = .localError "No hay cambios para guardar." := by
  subst hempty
  unfold updateExpediente
  rw [if_neg (by simp [huuid]), hfound]
  rw [show normalizeUpdatePayload today {} = .error "No hay cambios para guardar." from rfl]

/-- Witness for C10 at a concrete snapshot entry. -/
theorem spec_C10_empty_patch_witness :
    updateExpediente "2026-10-11" [sampleExp] "11111111-1111-1111-8111-111111111111"
      {} = .localError "No hay cambios para guardar." :=
  spec_C10_empty_patch "2026-10-11" [sampleExp] "11111111-1111-1111-8111-111111111111"
    sampleExp {} (by decide) (by decide) rfl

/-! ## Helper lemmas: dates -/

theorem normalizeDateOnly_idem (s d : String) (h : normalizeDateOnly s = some d) :
    normalizeDateOnly d = some d := by
  unfold normalizeDateOnly at h ⊢
  by_cases h1 : (s == "") = true
  · rw [if_pos h1] at h
    exact Option.noConfusion h
  rw [if_neg h1] at h
  by_cases h2 : validYmd s = true
  · rw [if_pos h2] at h
    rw [Option.some.injEq] at h
    subst h
    rw [if_neg h1, if_pos h2]
  · rw [if_neg h2] at h
    exact Option.noConfusion h

theorem isFutureDate_norm (today s d : String) (h : normalizeDateOnly s = some d) :
    isFutureDate today d = jsLt today d := by
  unfold isFutureDate
  rw [normalizeDateOnly_idem s d h]

/-! ## Claim C1 -/

/-- C1: date ordering around create and update.
(a) If, after normalization, the filing date is unparseable or strictly after
today, or the effective last-movement date (defaulting to the filing date) is
unparseable, strictly after today, or earlier than the filing date, then the
create validator reports a validation error and `createExpediente` returns it
locally — before any network call and leaving the snapshot untouched.
(b) Every payload `createExpediente` hands to the backend satisfies
last-movement ≥ filing and both ≤ today (`jsLt` is the JS string comparison
the program uses on `YYYY-MM-DD` dates).
(c) Every payload `updateExpediente` hands to the backend whose patch does
not carry a filing date satisfies: the effective last-movement date
(patched value, else the current record's) is ≥ the current record's filing
date and not in the future. -/
theorem spec_C1_date_ordering (today : String) (data : ExpedienteInsert)
    (snapshot : List Expediente) (id : String) (patch : ExpedienteUpdate) :
    ((normalizeDateOnly data.fecha_presentacion = none ∨
      (∃ fp, normalizeDateOnly data.fecha_presentacion = some fp ∧
        (isFutureDate today fp = true ∨
         normalizeDateOnly (data.fecha_ultimo_movimiento.getD fp) = none ∨
         (∃ fm, normalizeDateOnly (data.fecha_ultimo_movimiento.getD fp) = some fm ∧
           (isFutureDate today fm = true ∨ jsLt fm fp = true))))) →
      (∃ e, normalizeCreatePayload today data = .error e) ∧
      (∃ e, createExpediente today snapshot data = .localError e)) ∧
    (∀ payload, createExpediente today snapshot data = .insert payload →
      jsLt payload.fecha_ultimo_movimiento payload.fecha_presentacion = false ∧
      jsLt today payload.fecha_presentacion = false ∧
      jsLt today payload.fecha_ultimo_movimiento = false) ∧
    (∀ payload, updateExpediente today snapshot id patch = .update payload →
      payload.fecha_presentacion = none →
      ∃ current, snapshot.find? (fun item => item.id == id) = some current ∧
        jsLt (payload.fecha_ultimo_movimiento.getD current.fecha_ultimo_movimiento)
          current.fecha_presentacion = false ∧
        isFutureDate today
          (payload.fecha_ultimo_movimiento.getD current.fecha_ultimo_movimiento) = false) := by
  refine ⟨?_, ?_, ?_⟩
  · intro hbad
    cases hres : normalizeCreatePayload today data with
    | error e =>
      refine ⟨⟨e, rfl⟩, ⟨e, ?_⟩⟩
      unfold createExpediente
      rw [hres]
    | ok payload =>
      exfalso
      have f := normalizeCreatePayload_ok today data payload hres
      rcases hbad with h | ⟨fp, hfp, hrest⟩
      · rw [f.2.2.1] at h
        exact Option.noConfusion h
      · rw [f.2.2.1, Option.some.injEq] at hfp
        subst hfp
        rcases hrest with h | h | ⟨fm, hfm, hrest2⟩
        · rw [f.2.2.2.1] at h
          exact Bool.noConfusion h
        · rw [f.2.2.2.2.1] at h
          exact Option.noConfusion h
        · rw [f.2.2.2.2.1, Option.some.injEq] at hfm
          subst hfm
          rcases hrest2 with h | h
          · rw [f.2.2.2.2.2.1] at h
            exact Bool.noConfusion h
          · rw [f.2.2.2.2.2.2] at h
            exact Bool.noConfusion h
  · intro payload h
    unfold createExpediente at h
    split at h
    · exact CreateResult.noConfusion h
    next p0 heq =>
      split at h
      · exact CreateResult.noConfusion h
      · rw [CreateResult.insert.injEq] at h
        subst h
        have f := normalizeCreatePayload_ok today data p0 heq
        refine ⟨f.2.2.2.2.2.2, ?_, ?_⟩
        · rw [← isFutureDate_norm today data.fecha_presentacion p0.fecha_presentacion f.2.2.1]
          exact f.2.2.2.1
        · rw [← isFutureDate_norm today
            (data.fecha_ultimo_movimiento.getD p0.fecha_presentacion)
            p0.fecha_ultimo_movimiento f.2.2.2.2.1]
          exact f.2.2.2.2.2.1
  · intro payload h hnofp
    unfold updateExpediente at h
    split at h
    · exact UpdateResult.noConfusion h
    split at h
    · exact UpdateResult.noConfusion h
    next current hfind =>
      split at h
      · exact UpdateResult.noConfusion h
      next p0 hnup =>
        refine ⟨current, hfind, ?_⟩
        have hguard : updateDateGuard today current p0 = .update payload := by
          split at h
          next fol hfol =>
            split at h
            · exact UpdateResult.noConfusion h
            · exact h
          next hfol => exact h
        unfold updateDateGuard at hguard
        simp only [] at hguard
        split at hguard
        · exact UpdateResult.noConfusion hguard
        split at hguard
        · exact UpdateResult.noConfusion hguard
        next hlt hfut =>
        rw [UpdateResult.update.injEq] at hguard
        subst hguard
        rw [hnofp] at hlt
        simp only [Option.getD_none] at hlt
        exact ⟨Bool.eq_false_iff.mpr hlt, Bool.eq_false_iff.mpr hfut⟩

/-- Witness for C1: creating with tomorrow's filing date is rejected before
any network call. -/
theorem spec_C1_date_ordering_witness :
    (∃ e, normalizeCreatePayload "2026-10-11"
        { folio := "CEDHBC-2026-002", fecha_presentacion := "2026-10-12",
          tipo_derecho := "Derecho a la Salud", autoridad_responsable := "Autoridad X",
          visitador_asignado := "Visitador General I" } = .error e) ∧
    (∃ e, createExpediente "2026-10-11" []
        { folio := "CEDHBC-2026-002", fecha_presentacion := "2026-10-12",
          tipo_derecho := "Derecho a la Salud", autoridad_responsable := "Autoridad X",
          visitador_asignado := "Visitador General I" } = .localError e) :=
  (spec_C1_date_ordering "2026-10-11"
    { folio := "CEDHBC-2026-002", fecha_presentacion := "2026-10-12",
      tipo_derecho := "Derecho a la Salud", autoridad_responsable := "Autoridad X",
      visitador_asignado := "Visitador General I" } [] "x" {}).1
    (Or.inr ⟨"2026-10-12", by decide, Or.inl (by decide)⟩)

/-! ## Helper lemmas: update-validator stages -/

theorem except_bind_ok {α β : Type} (x : Except String α) (f : α → Except String β) (b : β)
    (h : x.bind f = .ok b) : ∃ a, x = .ok a ∧ f a = .ok b := by
  cases x with
  | error e => exact absurd h (by simp [Except.bind])
  | ok a => exact ⟨a, rfl, h⟩

theorem except_map_ok {α β : Type} (x : Except String α) (g : α → β) (b : β)
    (h : x.map g = .ok b) : ∃ a, x = .ok a ∧ g a = b := by
  cases x with
  | error e => exact absurd h (by simp [Except.map])
  | ok a =>
    refine ⟨a, rfl, ?_⟩
    simpa [Except.map] using h

theorem nupFolio_fields (data : ExpedienteUpdate) (p p' : ExpedienteUpdateRow)
    (h : nupFolio data p = .ok p') :
    p'.fecha_presentacion = p.fecha_presentacion ∧ p'.estado = p.estado ∧
    p'.autoridad_responsable = p.autoridad_responsable ∧
    p'.visitador_asignado = p.visitador_asignado ∧
    p'.notas_seguimiento = p.notas_seguimiento ∧
    p'.fecha_ultimo_movimiento = p.fecha_ultimo_movimiento := by
  unfold nupFolio at h
  try simp only [] at h
  repeat' split at h
  any_goals exact Except.noConfusion h
  all_goals rw [Except.ok.injEq] at h
  all_goals subst h
  all_goals simp

theorem nupFechaPresentacion_fields (today : String) (data : ExpedienteUpdate)
    (p p' : ExpedienteUpdateRow) (h : nupFechaPresentacion today data p = .ok p') :
    p'.estado = p.estado ∧
    p'.autoridad_responsable = p.autoridad_responsable ∧
    p'.visitador_asignado = p.visitador_asignado ∧
    p'.notas_seguimiento = p.notas_seguimiento ∧
    p'.fecha_ultimo_movimiento = p.fecha_ultimo_movimiento := by
  unfold nupFechaPresentacion at h
  try simp only [] at h
  repeat' split at h
  any_goals exact Except.noConfusion h
  all_goals rw [Except.ok.injEq] at h
  all_goals subst h
  all_goals simp

theorem nupTipoDerecho_fields (data : ExpedienteUpdate) (p p' : ExpedienteUpdateRow)
    (h : nupTipoDerecho data p = .ok p') :
    p'.estado = p.estado ∧
    p'.autoridad_responsable = p.autoridad_responsable ∧
    p'.visitador_asignado = p.visitador_asignado ∧
    p'.notas_seguimiento = p.notas_seguimiento ∧
    p'.fecha_ultimo_movimiento = p.fecha_ultimo_movimiento := by
  unfold nupTipoDerecho at h
  try simp only [] at h
  repeat' split at h
  any_goals exact Except.noConfusion h
  all_goals rw [Except.ok.injEq] at h
  all_goals subst h
  all_goals simp

theorem nupAutoridad_fields (data : ExpedienteUpdate) (p p' : ExpedienteUpdateRow)
    (h : nupAutoridad data p = .ok p') :
    p'.estado = p.estado ∧
    p'.visitador_asignado = p.visitador_asignado ∧
    p'.notas_seguimiento = p.notas_seguimiento ∧
    p'.fecha_ultimo_movimiento = p.fecha_ultimo_movimiento ∧
    (data.autoridad_responsable.isSome = true → p'.autoridad_responsable.isSome = true) := by
  unfold nupAutoridad at h
  try simp only [] at h
  repeat' split at h
  any_goals exact Except.noConfusion h
  all_goals rw [Except.ok.injEq] at h
  all_goals subst h
  all_goals simp_all

theorem nupVisitador_fields (data : ExpedienteUpdate) (p p' : ExpedienteUpdateRow)
    (h : nupVisitador data p = .ok p') :
    p'.estado = p.estado ∧
    p'.autoridad_responsable = p.autoridad_responsable ∧
    p'.notas_seguimiento = p.notas_seguimiento ∧
    p'.fecha_ultimo_movimiento = p.fecha_ultimo_movimiento ∧
    (data.visitador_asignado.isSome = true → p'.visitador_asignado.isSome = true) := by
  unfold nupVisitador at h
  try simp only [] at h
  repeat' split at h
  any_goals exact Except.noConfusion h
  all_goals rw [Except.ok.injEq] at h
  all_goals subst h
  all_goals simp_all

theorem nupEstado_fields (data : ExpedienteUpdate) (p p' : ExpedienteUpdateRow)
    (h : nupEstado data p = .ok p') :
    p'.autoridad_responsable = p.autoridad_responsable ∧
    p'.visitador_asignado = p.visitador_asignado ∧
    p'.notas_seguimiento = p.notas_seguimiento ∧
    p'.fecha_ultimo_movimiento = p.fecha_ultimo_movimiento ∧
    (data.estado.isSome = true → p'.estado.isSome = true) := by
  unfold nupEstado at h
  try simp only [] at h
  repeat' split at h
  any_goals exact Except.noConfusion h
  all_goals rw [Except.ok.injEq] at h
  all_goals subst h
  all_goals simp_all

theorem nupNotas_fields (data : ExpedienteUpdate) (p p' : ExpedienteUpdateRow)
    (h : nupNotas data p = .ok p') :
    p'.estado = p.estado ∧
    p'.autoridad_responsable = p.autoridad_responsable ∧
    p'.visitador_asignado = p.visitador_asignado ∧
    p'.fecha_ultimo_movimiento = p.fecha_ultimo_movimiento ∧
    (data.notas_seguimiento.isSome = true → p'.notas_seguimiento.isSome = true) := by
  unfold nupNotas at h
  repeat' split at h
  all_goals rw [Except.ok.injEq] at h
  all_goals subst h
  all_goals simp_all

theorem nupFechaMovimiento_none (today : String) (data : ExpedienteUpdate)
    (p : ExpedienteUpdateRow) (hv : data.fecha_ultimo_movimiento = none) :
    nupFechaMovimiento today data p = .ok p := by
  unfold nupFechaMovimiento
  rw [hv]

theorem nupFechaMovimiento_some (today : String) (data : ExpedienteUpdate)
    (p p' : ExpedienteUpdateRow) (d : String)
    (hv : data.fecha_ultimo_movimiento = some d)
    (h : nupFechaMovimiento today data p = .ok p') :
    normalizeDateOnly d = some (p'.fecha_ultimo_movimiento.getD "") ∧
    p'.fecha_ultimo_movimiento.isSome = true ∧
    p'.estado = p.estado ∧
    p'.autoridad_responsable = p.autoridad_responsable ∧
    p'.visitador_asignado = p.visitador_asignado ∧
    p'.notas_seguimiento = p.notas_seguimiento := by
  unfold nupFechaMovimiento at h
  split at h
  next hnone =>
    rw [hv] at hnone
    exact Option.noConfusion hnone
  next v hsome =>
    rw [hv, Option.some.injEq] at hsome
    subst hsome
    split at h
    · exact Except.noConfusion h
    next fecha heq =>
    split at h
    · exact Except.noConfusion h
    rw [Except.ok.injEq] at h
    subst h
    simpa using heq

theorem nupMesRegistro_fields (data : ExpedienteUpdate) (p p' : ExpedienteUpdateRow)
    (h : nupMesRegistro data p = .ok p') :
    p'.estado = p.estado ∧
    p'.autoridad_responsable = p.autoridad_responsable ∧
    p'.visitador_asignado = p.visitador_asignado ∧
    p'.notas_seguimiento = p.notas_seguimiento ∧
    p'.fecha_ultimo_movimiento = p.fecha_ultimo_movimiento := by
  unfold nupMesRegistro at h
  try simp only [] at h
  repeat' split at h
  any_goals exact Except.noConfusion h
  all_goals rw [Except.ok.injEq] at h
  all_goals subst h
  all_goals simp

theorem nupCrossDates_ok (p p' : ExpedienteUpdateRow) (h : nupCrossDates p = .ok p') :
    p' = p := by
  unfold nupCrossDates at h
  repeat' split at h
  any_goals exact Except.noConfusion h
  all_goals rw [Except.ok.injEq] at h
  all_goals exact h.symm

theorem nupEmptyCheck_ok (p p' : ExpedienteUpdateRow) (h : nupEmptyCheck p = .ok p') :
    p' = p := by
  unfold nupEmptyCheck at h
  split at h
  · exact Except.noConfusion h
  · rw [Except.ok.injEq] at h
    exact h.symm

theorem nupTouch_sets (today : String) (p : ExpedienteUpdateRow)
    (hfm : p.fecha_ultimo_movimiento = none)
    (htracked : (p.estado.isSome || p.tipo_derecho.isSome || p.autoridad_responsable.isSome ||
      p.visitador_asignado.isSome || p.notas_seguimiento.isSome) = true) :
    (nupTouch today p).fecha_ultimo_movimiento = some today := by
  unfold nupTouch
  simp only [hfm, Option.isNone_none, Bool.true_and]
  rw [if_pos (by simpa [Bool.or_assoc] using htracked)]

theorem nupTouch_keeps (today : String) (p : ExpedienteUpdateRow)
    (hfm : p.fecha_ultimo_movimiento.isSome = true) :
    nupTouch today p = p := by
  unfold nupTouch
  rw [if_neg]
  simp [Option.isNone_iff_eq_none]
  intro hnone
  rw [hnone] at hfm
  exact Bool.noConfusion hfm

theorem normalizeUpdatePayload_chain (today : String) (data : ExpedienteUpdate)
    (payload : ExpedienteUpdateRow)
    (h : normalizeUpdatePayload today data = .ok payload) :
    ∃ p1 p2 p3 p4 p5 p6 p7 p8 p9 : ExpedienteUpdateRow,
      nupFolio data {} = .ok p1 ∧
      nupFechaPresentacion today data p1 = .ok p2 ∧
      nupTipoDerecho data p2 = .ok p3 ∧
      nupAutoridad data p3 = .ok p4 ∧
      nupVisitador data p4 = .ok p5 ∧
      nupEstado data p5 = .ok p6 ∧
      nupNotas data p6 = .ok p7 ∧
      nupFechaMovimiento today data p7 = .ok p8 ∧
      nupMesRegistro data p8 = .ok p9 ∧
      nupTouch today p9 = payload := by
  unfold normalizeUpdatePayload at h
  obtain ⟨p9, hA9, hfin⟩ := except_bind_ok _ _ _ h
  obtain ⟨p8, hA8, h9s⟩ := except_bind_ok _ _ _ hA9
  obtain ⟨p7, hA7, h8s⟩ := except_bind_ok _ _ _ hA8
  obtain ⟨p6, hA6, h7s⟩ := except_bind_ok _ _ _ hA7
  obtain ⟨p5, hA5, h6s⟩ := except_bind_ok _ _ _ hA6
  obtain ⟨p4, hA4, h5s⟩ := except_bind_ok _ _ _ hA5
  obtain ⟨p3, hA3, h4s⟩ := except_bind_ok _ _ _ hA4
  obtain ⟨p2, hA2, h3s⟩ := except_bind_ok _ _ _ hA3
  obtain ⟨p1, h1, h2s⟩ := except_bind_ok _ _ _ hA2
  obtain ⟨pc, hc, hm⟩ := except_bind_ok _ _ _ hfin
  rw [nupCrossDates_ok _ _ hc] at hm
  obtain ⟨pe, he, htch⟩ := except_map_ok _ _ _ hm
  rw [nupEmptyCheck_ok _ _ he] at htch
  exact ⟨p1, p2, p3, p4, p5, p6, p7, p8, p9,
    h1, h2s, h3s, h4s, h5s, h6s, h7s, h8s, h9s, htch⟩

/-! ## Claim C4 -/

/-- C4: when an accepted update patch omits an explicit last-movement date
but carries the status, authority, handler or notes field, the validated
payload's last-movement date is set to today; when the patch supplies an
explicit last-movement date, the payload keeps that (normalized) date. -/
theorem spec_C4_last_movement_advance (today : String) (data : ExpedienteUpdate)
    (payload : ExpedienteUpdateRow)
    (h : normalizeUpdatePayload today data = .ok payload) :
    (data.fecha_ultimo_movimiento = none →
      (data.estado.isSome || data.autoridad_responsable.isSome ||
       data.visitador_asignado.isSome || data.notas_seguimiento.isSome) = true →
      payload.fecha_ultimo_movimiento = some today) ∧
    (∀ d, data.fecha_ultimo_movimiento = some d →
      payload.fecha_ultimo_movimiento = normalizeDateOnly d) := by
  obtain ⟨p1, p2, p3, p4, p5, p6, p7, p8, p9,
    h1, h2s, h3s, h4s, h5s, h6s, h7s, h8s, h9s, htch⟩ :=
    normalizeUpdatePayload_chain today data payload h
  have f1 := nupFolio_fields _ _ _ h1
  have f2 := nupFechaPresentacion_fields _ _ _ _ h2s
  have f3 := nupTipoDerecho_fields _ _ _ h3s
  have f4 := nupAutoridad_fields _ _ _ h4s
  have f5 := nupVisitador_fields _ _ _ h5s
  have f6 := nupEstado_fields _ _ _ h6s
  have f7 := nupNotas_fields _ _ _ h7s
  have f9 := nupMesRegistro_fields _ _ _ h9s
  constructor
  · intro hfmnone htracked
    have h78 : p7 = p8 := by
      rw [nupFechaMovimiento_none today data p7 hfmnone] at h8s
      exact Except.ok.inj h8s
    have hp7fm : p7.fecha_ultimo_movimiento = none := by
      rw [f7.2.2.2.1, f6.2.2.2.1, f5.2.2.2.1, f4.2.2.2.1, f3.2.2.2.2, f2.2.2.2.2,
        f1.2.2.2.2.2]
    have hp9fm : p9.fecha_ultimo_movimiento = none := by
      rw [f9.2.2.2.2, ← h78, hp7fm]
    have hp9tracked : (p9.estado.isSome || p9.tipo_derecho.isSome ||
        p9.autoridad_responsable.isSome || p9.visitador_asignado.isSome ||
        p9.notas_seguimiento.isSome) = true := by
      rcases Bool.or_eq_true_iff.mp htracked with hor | hnotas
      · rcases Bool.or_eq_true_iff.mp hor with hor2 | hvis
        · rcases Bool.or_eq_true_iff.mp hor2 with hest | haut
          · have : p6.estado.isSome = true := f6.2.2.2.2 hest
            have : p9.estado.isSome = true := by
              rw [f9.1, ← h78, f7.1]
              exact this
            simp [this]
          · have : p4.autoridad_responsable.isSome = true := f4.2.2.2.2 haut
            have : p9.autoridad_responsable.isSome = true := by
              rw [f9.2.1, ← h78, f7.2.1, f6.1, f5.2.1]
              exact this
            simp [this]
        · have : p5.visitador_asignado.isSome = true := f5.2.2.2.2 hvis
          have : p9.visitador_asignado.isSome = true := by
            rw [f9.2.2.1, ← h78, f7.2.2.1, f6.2.1]
            exact this
          simp [this]
      · have : p7.notas_seguimiento.isSome = true := f7.2.2.2.2 hnotas
        have : p9.notas_seguimiento.isSome = true := by
          rw [f9.2.2.2.1, ← h78]
          exact this
        simp [this]
    rw [← htch]
    exact nupTouch_sets today p9 hp9fm hp9tracked
  · intro d hd
    have f8 := nupFechaMovimiento_some today data p7 p8 d hd h8s
    have hp9fm : p9.fecha_ultimo_movimiento = p8.fecha_ultimo_movimiento := f9.2.2.2.2
    have hp9some : p9.fecha_ultimo_movimiento.isSome = true := by
      rw [hp9fm]
      exact f8.2.1
    have hkeep : nupTouch today p9 = p9 := nupTouch_keeps today p9 hp9some
    obtain ⟨v, hv⟩ := Option.isSome_iff_exists.mp f8.2.1
    have : payload = p9 := by rw [← htch, hkeep]
    rw [this, hp9fm, hv]
    rw [hv] at f8
    simp at f8
    rw [f8.1]

/-- Witness for C4: updating only the status to 'Resuelta' auto-advances the
last-movement date to today; supplying an explicit date keeps it. -/
theorem spec_C4_last_movement_advance_witness :
    (normalizeUpdatePayload "2026-10-11" { estado := some "Resuelta" } =
      .ok { estado := some "Resuelta", fecha_ultimo_movimiento := some "2026-10-11" } ∧
     ({ estado := some "Resuelta", fecha_ultimo_movimiento := some "2026-10-11" }
       : ExpedienteUpdateRow).fecha_ultimo_movimiento = some "2026-10-11") ∧
    (({ estado := some "Resuelta", fecha_ultimo_movimiento := some "2026-02-03" }
       : ExpedienteUpdateRow).fecha_ultimo_movimiento = normalizeDateOnly "2026-02-03") := by
  refine ⟨⟨by decide, ?_⟩, ?_⟩
  · exact (spec_C4_last_movement_advance "2026-10-11" { estado := some "Resuelta" }
      { estado := some "Resuelta", fecha_ultimo_movimiento := some "2026-10-11" }
      (by decide)).1 rfl (by decide)
  · exact (spec_C4_last_movement_advance "2026-10-11"
      { estado := some "Resuelta", fecha_ultimo_movimiento := some "2026-02-03" }
      { estado := some "Resuelta", fecha_ultimo_movimiento := some "2026-02-03" }
      (by decide)).2 "2026-02-03" rfl

/-! ## Helper lemmas: notification sorting -/

theorem sortNotifs_sorted (l : List Notification) : (sortNotifs l).Sorted notifGE :=
  List.sorted_insertionSort notifGE l

theorem sortNotifs_perm (l : List Notification) : (sortNotifs l).Perm l :=
  List.perm_insertionSort notifGE l

theorem orderedInsert_front (x : Notification) (l : List Notification)
    (h : ∀ m ∈ l, m.timestamp ≤ x.timestamp) :
    l.orderedInsert notifGE x = x :: l := by
  cases l with
  | nil => rfl
  | cons y ys =>
    unfold List.orderedInsert
    rw [if_pos (show notifGE x y from h y (List.mem_cons_self y ys))]

theorem sortNotifs_cons_front (x : Notification) (l : List Notification)
    (h : ∀ m ∈ l, m.timestamp ≤ x.timestamp) :
    sortNotifs (x :: l) = x :: sortNotifs l := by
  unfold sortNotifs
  rw [List.insertionSort]
  exact orderedInsert_front x _ (fun m hm => h m ((List.perm_insertionSort notifGE l).subset hm))

theorem sortNotifs_strict_max (l : List Notification) (u : Notification) (hu : u ∈ l)
    (hmax : ∀ x ∈ l, x ≠ u → x.timestamp < u.timestamp) :
    ∃ t, sortNotifs l = u :: t := by
  cases hs : sortNotifs l with
  | nil =>
    exfalso
    have := (sortNotifs_perm l).symm.subset hu
    rw [hs] at this
    exact List.not_mem_nil u this
  | cons hd t =>
    have hsort := sortNotifs_sorted l
    rw [hs] at hsort
    have hperm := sortNotifs_perm l
    rw [hs] at hperm
    have hhd : hd ∈ l := hperm.subset (List.mem_cons_self hd t)
    by_cases hhu : hd = u
    · exact ⟨t, by rw [hhu]⟩
    · exfalso
      have hlt : hd.timestamp < u.timestamp := hmax hd hhd hhu
      have hu2 : u ∈ hd :: t := hperm.symm.subset hu
      rcases List.mem_cons.mp hu2 with h | h
      · exact hhu h.symm
      · have := List.rel_of_sorted_cons hsort u h
        unfold notifGE at this
        omega

theorem take_sorted_newest (l : List Notification) (k : Nat) :
    ∀ b ∈ l, b ∉ (sortNotifs l).take k →
    ∀ a ∈ (sortNotifs l).take k, b.timestamp ≤ a.timestamp := by
  intro b hb hbnot a ha
  have hsplit : (sortNotifs l).take k ++ (sortNotifs l).drop k = sortNotifs l :=
    List.take_append_drop k (sortNotifs l)
  have hsort := sortNotifs_sorted l
  rw [← hsplit] at hsort
  rw [List.Sorted, List.pairwise_append] at hsort
  have hbmem : b ∈ sortNotifs l := (sortNotifs_perm l).symm.subset hb
  rw [← hsplit] at hbmem
  rcases List.mem_append.mp hbmem with h | h
  · exact absurd h hbnot
  · exact hsort.2.2 a ha b h

theorem take_sorted_of_sorted (l : List Notification) (k : Nat)
    (h : l.Sorted notifGE) : (l.take k).Sorted notifGE :=
  List.Pairwise.sublist (List.take_sublist k l) h

/-! ## Claim C8 -/

set_option maxRecDepth 8192 in
/-- C8: every notification mutation leaves at most 80 entries sorted by
timestamp descending, keeping the newest ones: `addNotification` establishes
this from any state; `upsertSystemNotification` preserves it; any entry of
the pre-truncation list that is dropped is no newer than every kept entry;
and folding 100 inserts (timestamps 0..99) into an empty store leaves exactly
80 entries, the 80 most recent timestamps 99 down to 20. -/
theorem spec_C8_retention (newId key : String) (now : Nat) (n : NewNotification)
    (nk : SystemNotifInput) (prev : List Notification) :
    (addNotification newId now n prev).length ≤ MAX_NOTIFICATIONS ∧
    List.Sorted notifGE (addNotification newId now n prev) ∧
    (∀ b ∈ Notification.mk newId n.type n.title n.message false now :: prev,
      b ∉ addNotification newId now n prev →
      ∀ a ∈ addNotification newId now n prev, b.timestamp ≤ a.timestamp) ∧
    (prev.length ≤ MAX_NOTIFICATIONS → List.Sorted notifGE prev →
      (upsertSystemNotification now key nk prev).length ≤ MAX_NOTIFICATIONS ∧
      List.Sorted notifGE (upsertSystemNotification now key nk prev)) ∧
    (((List.range 100).foldl
        (fun acc i => addNotification "n" i { type := .info, title := "t", message := "m" } acc)
        []).length = 80 ∧
     ((List.range 100).foldl
        (fun acc i => addNotification "n" i { type := .info, title := "t", message := "m" } acc)
        []).map (fun x => x.timestamp) = (List.range 80).map (fun i => 99 - i)) := by
  refine ⟨?_, ?_, ?_, ?_, ?_, ?_⟩
  · exact List.length_take_le _ _
  · exact take_sorted_of_sorted _ _ (sortNotifs_sorted _)
  · intro b hb hbnot a ha
    exact take_sorted_newest _ MAX_NOTIFICATIONS b hb hbnot a ha
  · intro hlen hsorted
    unfold upsertSystemNotification
    split
    · exact ⟨List.length_take_le _ _, take_sorted_of_sorted _ _ (sortNotifs_sorted _)⟩
    · simp only []
      split
      · exact ⟨List.length_take_le _ _, take_sorted_of_sorted _ _ (sortNotifs_sorted _)⟩
      · exact ⟨hlen, hsorted⟩
  · decide
  · decide

/-- Witness for C8 discharging the upsert-preservation hypotheses at the
empty store. -/
theorem spec_C8_retention_witness :
    (upsertSystemNotification 5 "k"
      { type := .warning, title := "tt", message := "mm" } []).length ≤ MAX_NOTIFICATIONS ∧
    List.Sorted notifGE (upsertSystemNotification 5 "k"
      { type := .warning, title := "tt", message := "mm" } []) :=
  (spec_C8_retention "a" "k" 5 { type := .info, title := "t", message := "m" }
    { type := .warning, title := "tt", message := "mm" } []).2.2.2.1
    (by decide) (by simp)

theorem upsert_absent (now : Nat) (key : String) (n : SystemNotifInput)
    (prev : List Notification)
    (hfind : prev.find? (fun item => item.id == key) = none) :
    upsertSystemNotification now key n prev =
      (sortNotifs (Notification.mk key n.type n.title n.message (n.read.getD false) now
        :: prev)).take MAX_NOTIFICATIONS := by
  unfold upsertSystemNotification
  rw [hfind]

theorem upsert_found_unchanged (now : Nat) (key : String) (n : SystemNotifInput)
    (prev : List Notification) (found : Notification)
    (hfind : prev.find? (fun item => item.id == key) = some found)
    (hcc : (found.title != n.title || found.message != n.message || found.type != n.type ||
      found.read != (n.read.getD found.read)) = false) :
    upsertSystemNotification now key n prev = prev := by
  unfold upsertSystemNotification
  rw [hfind]
  simp only []
  rw [if_neg (by simp [hcc])]

theorem upsert_found_changed (now : Nat) (key : String) (n : SystemNotifInput)
    (prev : List Notification) (found : Notification)
    (hfind : prev.find? (fun item => item.id == key) = some found)
    (hcc : (found.title != n.title || found.message != n.message || found.type != n.type ||
      found.read != (n.read.getD found.read)) = true) :
    upsertSystemNotification now key n prev =
      (sortNotifs (prev.map (fun item =>
        if item.id == key then
          Notification.mk item.id n.type n.title n.message (n.read.getD false) now
        else item))).take MAX_NOTIFICATIONS := by
  unfold upsertSystemNotification
  rw [hfind]
  simp only []
  rw [if_pos hcc]

/-! ## Claim C7 -/

/-- C7: keyed system-notification upsert.
(A) When the key is absent and all existing timestamps are at most `now1`,
the first call leaves exactly one entry with that key, and a second call with
identical content returns the list unchanged — same single entry, same
timestamp.
(B) When the key is present on exactly one entry, the content differs, and
every other entry is strictly older, the call updates that single entry in
place (same key, new content), refreshes its timestamp to `now`, and moves it
to the front; exactly one entry with the key remains. -/
theorem spec_C7_upsert_idempotency (now1 now2 now : Nat) (key : String)
    (n : SystemNotifInput) (prev : List Notification) :
    ((∀ m ∈ prev, m.id ≠ key) → (∀ m ∈ prev, m.timestamp ≤ now1) →
      (upsertSystemNotification now1 key n prev).countP (fun m => m.id == key) = 1 ∧
      upsertSystemNotification now2 key n (upsertSystemNotification now1 key n prev) =
        upsertSystemNotification now1 key n prev) ∧
    (∀ found, prev.find? (fun item => item.id == key) = some found →
      (∀ m ∈ prev, m.id = key → m = found) →
      prev.countP (fun m => m.id == key) = 1 →
      (∀ m ∈ prev, m.id ≠ key → m.timestamp < now) →
      (found.title != n.title || found.message != n.message || found.type != n.type ||
        found.read != (n.read.getD found.read)) = true →
      (upsertSystemNotification now key n prev).head? =
        some (Notification.mk key n.type n.title n.message (n.read.getD false) now) ∧
      (upsertSystemNotification now key n prev).countP (fun m => m.id == key) = 1) := by
  constructor
  · intro hid hts
    have hfind : prev.find? (fun item => item.id == key) = none :=
      List.find?_eq_none.mpr (fun m hm => by simp [hid m hm])
    have hl1 : upsertSystemNotification now1 key n prev =
        Notification.mk key n.type n.title n.message (n.read.getD false) now1
          :: (sortNotifs prev).take 79 := by
      rw [upsert_absent now1 key n prev hfind]
      rw [sortNotifs_cons_front _ _ (fun m hm => hts m hm)]
      rw [show MAX_NOTIFICATIONS = 79 + 1 from rfl, List.take_succ_cons]
    have hcount : (upsertSystemNotification now1 key n prev).countP
        (fun m => m.id == key) = 1 := by
      rw [hl1, List.countP_cons_of_pos _ _ (by simp)]
      have hzero : ((sortNotifs prev).take 79).countP (fun m => m.id == key) = 0 := by
        rw [List.countP_eq_zero]
        intro m hm
        have hmem : m ∈ prev := (sortNotifs_perm prev).subset (List.take_subset _ _ hm)
        simp [hid m hmem]
      rw [hzero]
    refine ⟨hcount, ?_⟩
    have hfind2 : (upsertSystemNotification now1 key n prev).find?
        (fun item => item.id == key) =
        some (Notification.mk key n.type n.title n.message (n.read.getD false) now1) := by
      rw [hl1]
      exact List.find?_cons_of_pos _ (by simp)
    apply upsert_found_unchanged now2 key n _ _ hfind2
    have htype : (n.type != n.type) = false := by
      cases n.type <;> rfl
    cases hr : n.read with
    | none => simp [hr, htype]
    | some b => simp [hr, htype]
  · intro found hfind huniq hcount hts hcc
    have hfoundmem : found ∈ prev := List.mem_of_find?_eq_some hfind
    have hkey : found.id = key := by
      have := List.find?_some hfind
      simpa using this
    have hfl : (if (found.id == key) = true then
        Notification.mk found.id n.type n.title n.message (n.read.getD false) now
        else found) =
        Notification.mk key n.type n.title n.message (n.read.getD false) now := by
      rw [if_pos (by simp [hkey])]
      rw [hkey]
    have hupdmem : Notification.mk key n.type n.title n.message (n.read.getD false) now ∈
        prev.map (fun item => if item.id == key then
          Notification.mk item.id n.type n.title n.message (n.read.getD false) now
          else item) :=
      List.mem_map.mpr ⟨found, hfoundmem, hfl⟩
    have hstrict : ∀ x ∈ prev.map (fun item => if item.id == key then
        Notification.mk item.id n.type n.title n.message (n.read.getD false) now
        else item),
        x ≠ Notification.mk key n.type n.title n.message (n.read.getD false) now →
        x.timestamp <
          (Notification.mk key n.type n.title n.message (n.read.getD false) now).timestamp := by
      intro x hx hne
      obtain ⟨m, hm, hfm⟩ := List.mem_map.mp hx
      by_cases hmk : m.id = key
      · exfalso
        apply hne
        rw [← hfm, huniq m hm hmk]
        exact hfl
      · rw [if_neg (by simp [hmk])] at hfm
        rw [← hfm]
        exact hts m hm hmk
    obtain ⟨t, ht⟩ := sortNotifs_strict_max _ _ hupdmem hstrict
    have hres := upsert_found_changed now key n prev found hfind hcc
    rw [ht, show MAX_NOTIFICATIONS = 79 + 1 from rfl, List.take_succ_cons] at hres
    have hcount_map : (prev.map (fun item => if item.id == key then
        Notification.mk item.id n.type n.title n.message (n.read.getD false) now
        else item)).countP (fun m => m.id == key) = 1 := by
      rw [List.countP_map]
      rw [show ((fun m => m.id == key) ∘ (fun item => if item.id == key then
        Notification.mk item.id n.type n.title n.message (n.read.getD false) now
        else item)) = (fun m => m.id == key) from ?_]
      · exact hcount
      · funext m
        simp only [Function.comp_apply]
        by_cases hmk : (m.id == key) = true
        · rw [if_pos hmk]
        · rw [if_neg hmk]
    have hcount_sorted : (sortNotifs (prev.map (fun item => if item.id == key then
        Notification.mk item.id n.type n.title n.message (n.read.getD false) now
        else item))).countP (fun m => m.id == key) = 1 := by
      rw [(sortNotifs_perm _).countP_eq]
      exact hcount_map
    rw [ht, List.countP_cons_of_pos _ _ (by simp)] at hcount_sorted
    have htzero : t.countP (fun m => m.id == key) = 0 := by omega
    constructor
    · rw [hres]
      rfl
    · rw [hres, List.countP_cons_of_pos _ _ (by simp)]
      have := List.Sublist.countP_le (fun m => m.id == key) (List.take_sublist 79 t)
      omega

/-- Witness for C7: both scenarios at concrete inputs — a fresh system
notification re-upserted with identical content, and a stored one upserted
with changed content. -/
theorem spec_C7_upsert_idempotency_witness :
    ((upsertSystemNotification 10 "sys-1"
        { type := .warning, title := "Casos sin movimiento", message := "Hay 3" }
        []).countP (fun m => m.id == "sys-1") = 1 ∧
      upsertSystemNotification 20 "sys-1"
        { type := .warning, title := "Casos sin movimiento", message := "Hay 3" }
        (upsertSystemNotification 10 "sys-1"
          { type := .warning, title := "Casos sin movimiento", message := "Hay 3" } []) =
        upsertSystemNotification 10 "sys-1"
          { type := .warning, title := "Casos sin movimiento", message := "Hay 3" } []) ∧
    ((upsertSystemNotification 20 "sys-1"
        { type := .warning, title := "Casos sin movimiento", message := "Hay 4" }
        [Notification.mk "sys-1" .warning "Casos sin movimiento" "Hay 3" false 10]).head? =
      some (Notification.mk "sys-1" .warning "Casos sin movimiento" "Hay 4" false 20) ∧
     (upsertSystemNotification 20 "sys-1"
        { type := .warning, title := "Casos sin movimiento", message := "Hay 4" }
        [Notification.mk "sys-1" .warning "Casos sin movimiento" "Hay 3" false 10]).countP
        (fun m => m.id == "sys-1") = 1) := by
  constructor
  · exact (spec_C7_upsert_idempotency 10 20 0 "sys-1"
      { type := .warning, title := "Casos sin movimiento", message := "Hay 3" } []).1
      (by simp) (by simp)
  · exact (spec_C7_upsert_idempotency 0 0 20 "sys-1"
      { type := .warning, title := "Casos sin movimiento", message := "Hay 4" }
      [Notification.mk "sys-1" .warning "Casos sin movimiento" "Hay 3" false 10]).2
      (Notification.mk "sys-1" .warning "Casos sin movimiento" "Hay 3" false 10)
      (by decide)
      (by
        intro m hm hmk
        rw [List.mem_singleton] at hm
        exact hm)
      (by decide)
      (by
        intro m hm hne
        rw [List.mem_singleton] at hm
        exact absurd (by rw [hm]) hne)
      (by decide)

/-! ## Claim C5 -/

/-- C5 (code bug): the two stored spellings of the accented states are NOT
merged by the report's status-count projection.  On a snapshot holding one
case per spelling of the in-integration state, `normalizeEstado` identifies
the spellings, and the Dashboard projection merges them into one bucket of
count 2 — but `reportData.byEstado` (Reportes.tsx 176-180) buckets by the raw
stored string and yields two distinct buckets of count 1, contradicting the
spec's requirement that all status-based metrics merge both spellings. -/
theorem spec_C5_dual_spelling_report_bug :
    normalizeEstado "En integración" = normalizeEstado "En integracion" ∧
    reportByEstado
      [{ sampleExp with estado := "En integración" },
       { sampleExp with id := otherUuid, folio := "CEDHBC-2026-002", estado := "En integracion" }] =
      [("En integración", 1), ("En integracion", 1)] ∧
    dashboardEstadoData
      [{ sampleExp with estado := "En integración" },
       { sampleExp with id := otherUuid, folio := "CEDHBC-2026-002", estado := "En integracion" }] =
      [("En integracion", 2)] := by
  refine ⟨by decide, by decide, by decide⟩

/-! ## Claim C9 -/

/-- The snapshot in place when the backup import of the C9 scenario starts. -/
def importSnapshot : List Expediente :=
  [{ sampleExp with folio := "CEDHBC-2025-001" },
   { sampleExp with id := otherUuid, folio := "CEDHBC-2025-002" }]

/-- The C9 scenario batch: 10 submitted records — two duplicating existing
folios, one with an invalid folio, seven fresh. -/
def importBatch : List BackupRecord :=
  [{ folio := some "CEDHBC-2025-001" },
   { folio := some "CEDHBC-2025-002" },
   { folio := some "BAD" },
   { folio := some "CEDHBC-2026-101" },
   { folio := some "CEDHBC-2026-102" },
   { folio := some "CEDHBC-2026-103" },
   { folio := some "CEDHBC-2026-104" },
   { folio := some "CEDHBC-2026-105" },
   { folio := some "CEDHBC-2026-106" },
   { folio := some "CEDHBC-2026-107" }]

/-- C9 counterexample: in the 10-record scenario (2 duplicates, 1 invalid
folio) the import reports 7 imported, 2 skipped and 0 failed — not the
claimed 1 failed.  The invalid-folio record is silently dropped by
`parseBackupRecords` (9 records survive parsing) and never reaches the
counters. -/
theorem spec_C9_counterexample :
    importBatch.length = 10 ∧
    (parseBackupRecords "2026-10-11" "Visitador General I" importBatch).length = 9 ∧
    handleImportRespaldo "2026-10-11" "Visitador General I" importSnapshot importBatch =
      { imported := 7, skipped := 2, failed := 0 } ∧
    (handleImportRespaldo "2026-10-11" "Visitador General I" importSnapshot importBatch).failed
      ≠ 1 := by
  refine ⟨by decide, by decide, by decide, by decide⟩

/-- C9 amended: bulk import classifies every PARSED record independently into
imported / skipped-duplicate / failed and never aborts (the three counters
always sum to the number of records entering the loop); records that fail
folio or required-field validation are silently dropped during parsing and
are not counted at all, so the 10-record scenario (2 duplicates, 1 invalid
folio) reports 7 imported, 2 skipped-duplicate, 0 failed. -/
theorem spec_C9_import_classification_amended (today _fallbackVisitador : String)
    (snapshot : List Expediente) (existing : List String)
    (records : List ExpedienteInsert) :
    ((importLoop today snapshot existing records).imported +
     (importLoop today snapshot existing records).skipped +
     (importLoop today snapshot existing records).failed = records.length) ∧
    (parseBackupRecords "2026-10-11" "Visitador General I" importBatch).length = 9 ∧
    handleImportRespaldo "2026-10-11" "Visitador General I" importSnapshot importBatch =
      { imported := 7, skipped := 2, failed := 0 } := by
  refine ⟨?_, by decide, by decide⟩
  induction records generalizing existing with
  | nil => rfl
  | cons r rs ih =>
    unfold importLoop
    split
    · simp only []
      have h := ih existing
      simp
      omega
    · split
      · simp only []
        have h := ih existing
        simp
        omega
      · simp only []
        have h := ih (jsToUpper r.folio :: existing)
        simp
        omega
